import Mathlib

/-!
# eBPF for Windows: driver transport, bpf2c sample and object model

A shallow embedding of
* `src/ebpf/sys/ebpf_drv.c` (status translation, driver object initialization and
  the IOCTL dispatch routine),
* `tests/bpf2c_tests/expected/tail_call_multiple_raw.c` (the generated sample),
* `netebpfext/sys/net_ebpf_ext_drv.c` (the driver entry and its clean-up routine),
* `libs/api/api_internal.h` (the object / program / map records and the
  iteration and enumeration entry points it declares),
followed by the properties established about them.
-/

namespace EbpfForWindows

/-! ## Status codes -/

/-- An `NTSTATUS`, kept as its 32-bit pattern. -/
abbrev NTSTATUS := Nat

/-- The SDK test `NT_SUCCESS(Status)`, `((NTSTATUS)(Status)) >= 0` on the signed
32-bit value: the sign bit of the pattern is clear. -/
def NT_SUCCESS (status : NTSTATUS) : Bool := status % 2 ^ 32 < 2 ^ 31

def STATUS_SUCCESS : NTSTATUS := 0x00000000
def STATUS_INVALID_HANDLE : NTSTATUS := 0xC0000008
def STATUS_INVALID_PARAMETER : NTSTATUS := 0xC000000D
def STATUS_BUFFER_TOO_SMALL : NTSTATUS := 0xC0000023
def STATUS_INSUFFICIENT_RESOURCES : NTSTATUS := 0xC000009A
def STATUS_NOT_SUPPORTED : NTSTATUS := 0xC00000BB
def STATUS_NOT_FOUND : NTSTATUS := 0xC0000225
def STATUS_NO_MORE_MATCHES : NTSTATUS := 0xC0000273

/-- The NDIS status `NDIS_STATUS_INVALID_PARAMETER`, which `ndis.h` defines as
`((NDIS_STATUS)STATUS_INVALID_PARAMETER)`. -/
def NDIS_STATUS_INVALID_PARAMETER : NTSTATUS := STATUS_INVALID_PARAMETER

/-- The enumeration `ebpf_error_code_t` switched on by `ebpf_error_code_to_ntstatus`.
Its declaration lives in `ebpf_windows.h`; the eight enumerators named by the
switch are the first eight constructors, and `unnamed v` stands for any other
value `v` a variable of the enumeration type can hold (the `default:` label). -/
inductive ebpf_error_code_t where
  | EBPF_ERROR_SUCCESS
  | EBPF_ERROR_OUT_OF_RESOURCES
  | EBPF_ERROR_NOT_FOUND
  | EBPF_ERROR_INVALID_PARAMETER
  | EBPF_ERROR_BLOCKED_BY_POLICY
  | EBPF_ERROR_NO_MORE_KEYS
  | EBPF_ERROR_INVALID_HANDLE
  | EBPF_ERROR_NOT_SUPPORTED
  | unnamed (value : Nat)
  deriving DecidableEq, Repr

open ebpf_error_code_t

/-- The eight enumerators that have a `case` label of their own. -/
def named_error_codes : List ebpf_error_code_t :=
  [EBPF_ERROR_SUCCESS, EBPF_ERROR_OUT_OF_RESOURCES, EBPF_ERROR_NOT_FOUND,
   EBPF_ERROR_INVALID_PARAMETER, EBPF_ERROR_BLOCKED_BY_POLICY, EBPF_ERROR_NO_MORE_KEYS,
   EBPF_ERROR_INVALID_HANDLE, EBPF_ERROR_NOT_SUPPORTED]

/-- `ebpf_error_code_to_ntstatus` of `ebpf_drv.c`, one arm per `case` label. -/
def ebpf_error_code_to_ntstatus (error : ebpf_error_code_t) : NTSTATUS :=
  match error with
  | EBPF_ERROR_SUCCESS => STATUS_SUCCESS
  | EBPF_ERROR_OUT_OF_RESOURCES => STATUS_INSUFFICIENT_RESOURCES
  | EBPF_ERROR_NOT_FOUND => STATUS_NOT_FOUND
  | EBPF_ERROR_INVALID_PARAMETER => STATUS_INVALID_PARAMETER
  | EBPF_ERROR_BLOCKED_BY_POLICY => STATUS_NOT_SUPPORTED
  | EBPF_ERROR_NO_MORE_KEYS => STATUS_NO_MORE_MATCHES
  | EBPF_ERROR_INVALID_HANDLE => STATUS_INVALID_HANDLE
  | EBPF_ERROR_NOT_SUPPORTED => STATUS_NOT_SUPPORTED
  | unnamed _ => STATUS_INVALID_PARAMETER

/-! ## The IOCTL dispatch routine -/

/-- The macro `CTL_CODE(DeviceType, Function, Method, Access)` of `ebpf_drv.c`. -/
def CTL_CODE (DeviceType Function Method Access : Nat) : Nat :=
  (DeviceType <<< 16) ||| (Access <<< 14) ||| (Function <<< 2) ||| Method

def FILE_DEVICE_NETWORK : Nat := 0x00000012
def METHOD_BUFFERED : Nat := 0
def FILE_ANY_ACCESS : Nat := 0

/-- The device type `EBPF_IOCTL_TYPE`. -/
def EBPF_IOCTL_TYPE : Nat := FILE_DEVICE_NETWORK

/-- The control code `IOCTL_EBPFCTL_METHOD_BUFFERED`. -/
def IOCTL_EBPFCTL_METHOD_BUFFERED : Nat :=
  CTL_CODE EBPF_IOCTL_TYPE 0x900 METHOD_BUFFERED FILE_ANY_ACCESS

/-- What `WdfRequestRetrieveInputBuffer` / `WdfRequestRetrieveOutputBuffer` hand
back: the status, whether the buffer pointer written is non-NULL, and the
length written. -/
structure buffer_result where
  status : NTSTATUS
  non_null : Bool
  actual_length : Nat
  deriving DecidableEq, Repr

/-- What `ebpf_core_get_protocol_handler_properties` hands back: its result and
the two sizes it writes. -/
structure handler_properties where
  result : ebpf_error_code_t
  minimum_request_size : Nat
  minimum_reply_size : Nat
  deriving DecidableEq, Repr

/-- Everything `EbpfCoreEvtIoDeviceControl` obtains from outside itself.
* `header_size` is `sizeof(struct _ebpf_operation_header)` (`ebpf_protocol.h`);
* `retrieve_input n`, `retrieve_output n` answer the two WDF retrieval calls made
  with minimum length `n`;
* `register_callouts` is the status of `ebpf_hook_register_callouts`;
* `request_id` is `user_request->id` as read before the handler runs, and
  `request_id_after` the same field read after it (input and output buffer are
  the same memory, so the handler may have written over it);
* `get_properties id` and `invoke_handler id reply_non_null reply_length` answer
  the two calls into the core. -/
structure io_environment where
  header_size : Nat
  retrieve_input : Nat → buffer_result
  register_callouts : NTSTATUS
  request_id : Nat
  request_id_after : Nat
  get_properties : Nat → handler_properties
  retrieve_output : Nat → buffer_result
  invoke_handler : Nat → Bool → Nat → ebpf_error_code_t

/-- The observable steps of one run of `EbpfCoreEvtIoDeviceControl`, in order. -/
inductive io_event where
  | retrieve_input_buffer (minimum_length : Nat)
  | hook_register_callouts
  | get_protocol_handler_properties (id : Nat)
  | retrieve_output_buffer (minimum_length : Nat)
  | invoke_protocol_handler (id : Nat) (reply_non_null : Bool) (reply_length : Nat)
  | write_reply_header (id : Nat) (length : Nat)
  | complete_with_information (status : NTSTATUS) (information : Nat)
  deriving DecidableEq, Repr

open io_event

/-- The label `Done:` of `EbpfCoreEvtIoDeviceControl`:
`WdfRequestCompleteWithInformation(request, status, output_buffer_length)`. -/
def Done (status : NTSTATUS) (output_buffer_length : Nat) : List io_event :=
  [complete_with_information status output_buffer_length]

/-- The cast `(uint16_t)x` of a `size_t`. -/
def to_uint16 (x : Nat) : Nat := x % 2 ^ 16

/-- Lines 282-313 of `ebpf_drv.c`: the reply buffer is retrieved when the
operation has a reply, then the handler is invoked and the reply header filled. -/
def dispatch_with_reply (env : io_environment) (output_buffer_length : Nat)
    (minimum_reply_size : Nat) : List io_event :=
  let invoke (user_reply : Bool) (actual_output_length : Nat) : List io_event :=
    let status := ebpf_error_code_to_ntstatus
      (env.invoke_handler env.request_id user_reply (to_uint16 actual_output_length))
    [invoke_protocol_handler env.request_id user_reply (to_uint16 actual_output_length)]
      ++ (if status = STATUS_SUCCESS ∧ user_reply = true then
            [write_reply_header env.request_id_after (to_uint16 actual_output_length)]
          else [])
      ++ Done status output_buffer_length
  if minimum_reply_size > 0 then
    let out := env.retrieve_output output_buffer_length
    [retrieve_output_buffer output_buffer_length] ++
      (if NT_SUCCESS out.status = false then Done out.status output_buffer_length
       else if out.non_null = false then Done STATUS_INVALID_PARAMETER output_buffer_length
       else if out.actual_length < minimum_reply_size then
         Done STATUS_BUFFER_TOO_SMALL output_buffer_length
       else invoke true out.actual_length)
  else invoke false 0

/-- The routine `EbpfCoreEvtIoDeviceControl` of `ebpf_drv.c`, as the sequence of
its calls to the outside. -/
def EbpfCoreEvtIoDeviceControl (env : io_environment)
    (output_buffer_length input_buffer_length io_control_code : Nat) : List io_event :=
  if io_control_code = IOCTL_EBPFCTL_METHOD_BUFFERED then
    if input_buffer_length ≠ 0 then
      let inp := env.retrieve_input input_buffer_length
      [retrieve_input_buffer input_buffer_length] ++
        (if NT_SUCCESS inp.status = false then Done inp.status output_buffer_length
         else if inp.non_null = false then Done STATUS_INVALID_PARAMETER output_buffer_length
         else
           [hook_register_callouts] ++
             (if inp.actual_length < env.header_size then
                Done STATUS_INVALID_PARAMETER output_buffer_length
              else
                let props := env.get_properties env.request_id
                let status := ebpf_error_code_to_ntstatus props.result
                [get_protocol_handler_properties env.request_id] ++
                  (if status ≠ STATUS_SUCCESS then Done status output_buffer_length
                   else dispatch_with_reply env output_buffer_length props.minimum_reply_size)))
    else Done NDIS_STATUS_INVALID_PARAMETER output_buffer_length
  else Done STATUS_SUCCESS output_buffer_length

/-! ### Reading a run -/

/-- Whether the step is a call of `ebpf_core_invoke_protocol_handler`. -/
def is_invoke : io_event → Bool
  | invoke_protocol_handler _ _ _ => true
  | _ => false

/-- Whether the step is a call of `ebpf_core_get_protocol_handler_properties`. -/
def is_get_properties : io_event → Bool
  | get_protocol_handler_properties _ => true
  | _ => false

/-- Whether the run calls the protocol handler. -/
def handler_invoked (run : List io_event) : Bool := run.any is_invoke

/-- Whether the run looks up handler properties. -/
def properties_looked_up (run : List io_event) : Bool := run.any is_get_properties

/-- The steps of the run that come before its first handler invocation. -/
def before_invoke (run : List io_event) : List io_event :=
  run.takeWhile (fun e => !is_invoke e)

/-- The statuses the request is completed with, one per completion. -/
def completion_statuses (run : List io_event) : List NTSTATUS :=
  run.filterMap fun e =>
    match e with
    | complete_with_information status _ => some status
    | _ => none

/-- The `(id, reply_non_null, reply_length)` of every handler invocation of the run. -/
def invocations (run : List io_event) : List (Nat × Bool × Nat) :=
  run.filterMap fun e =>
    match e with
    | invoke_protocol_handler id reply_non_null reply_length =>
        some (id, reply_non_null, reply_length)
    | _ => none

/-- The `(status, information)` of every completion of the run, in order. -/
def completions (run : List io_event) : List (NTSTATUS × Nat) :=
  run.filterMap fun e =>
    match e with
    | complete_with_information status information => some (status, information)
    | _ => none

/-- The `(id, length)` of every write to the reply header made by the run. -/
def reply_header_writes (run : List io_event) : List (Nat × Nat) :=
  run.filterMap fun e =>
    match e with
    | write_reply_header id length => some (id, length)
    | _ => none

/-- Whether the step retrieves the input or the output buffer. -/
def is_retrieve : io_event → Bool
  | retrieve_input_buffer _ => true
  | retrieve_output_buffer _ => true
  | _ => false

/-- Whether the run retrieves a buffer. -/
def buffer_retrieved (run : List io_event) : Bool := run.any is_retrieve

/-- Whether the run calls `ebpf_hook_register_callouts`. -/
def callouts_registered (run : List io_event) : Bool :=
  run.any fun e => e == hook_register_callouts

/-! ### The routine with its local variables -/

/-- The local variables of `EbpfCoreEvtIoDeviceControl` that its control flow
reads; the two buffer pointers and `user_reply` are kept as "is not NULL". -/
structure ioctl_locals where
  status : NTSTATUS
  input_buffer : Bool
  output_buffer : Bool
  actual_input_length : Nat
  actual_output_length : Nat
  user_reply : Bool
  deriving DecidableEq, Repr

/-- The label `Done:` reading the variable `status`. -/
def Done_locals (l : ioctl_locals) (output_buffer_length : Nat) : List io_event :=
  [complete_with_information l.status output_buffer_length]

/-- Lines 282-313 of `ebpf_drv.c`, statement by statement on the locals. -/
def dispatch_with_reply_locals (env : io_environment) (output_buffer_length : Nat)
    (minimum_reply_size : Nat) (l : ioctl_locals) : List io_event :=
  let invoke (l : ioctl_locals) : List io_event :=
    let result :=
      env.invoke_handler env.request_id l.user_reply (to_uint16 l.actual_output_length)
    let l1 := { l with status := ebpf_error_code_to_ntstatus result }
    [invoke_protocol_handler env.request_id l.user_reply (to_uint16 l.actual_output_length)]
      ++ (if l1.status = STATUS_SUCCESS ∧ l1.user_reply = true then
            [write_reply_header env.request_id_after (to_uint16 l1.actual_output_length)]
          else [])
      ++ Done_locals l1 output_buffer_length
  if minimum_reply_size > 0 then
    let out := env.retrieve_output output_buffer_length
    let l1 := { l with status := out.status, output_buffer := out.non_null,
                       actual_output_length := out.actual_length }
    [retrieve_output_buffer output_buffer_length] ++
      (if NT_SUCCESS l1.status = false then Done_locals l1 output_buffer_length
       else if l1.output_buffer = false then
         Done_locals { l1 with status := STATUS_INVALID_PARAMETER } output_buffer_length
       else if l1.actual_output_length < minimum_reply_size then
         Done_locals { l1 with status := STATUS_BUFFER_TOO_SMALL } output_buffer_length
       else invoke { l1 with user_reply := l1.output_buffer })
  else invoke l

/-- The routine `EbpfCoreEvtIoDeviceControl` of `ebpf_drv.c`, statement by
statement on its locals: every assignment to `status` of the source is an update
of the record, and `Done:` completes the request with the value the variable
holds when the label is reached. -/
def EbpfCoreEvtIoDeviceControl_locals (env : io_environment)
    (output_buffer_length input_buffer_length io_control_code : Nat) : List io_event :=
  let l0 : ioctl_locals :=
    { status := STATUS_SUCCESS, input_buffer := false, output_buffer := false,
      actual_input_length := 0, actual_output_length := 0, user_reply := false }
  if io_control_code = IOCTL_EBPFCTL_METHOD_BUFFERED then
    if input_buffer_length ≠ 0 then
      let inp := env.retrieve_input input_buffer_length
      let l1 := { l0 with status := inp.status, input_buffer := inp.non_null,
                          actual_input_length := inp.actual_length }
      [retrieve_input_buffer input_buffer_length] ++
        (if NT_SUCCESS l1.status = false then Done_locals l1 output_buffer_length
         else if l1.input_buffer = false then
           Done_locals { l1 with status := STATUS_INVALID_PARAMETER } output_buffer_length
         else
           let l2 := { l1 with status := env.register_callouts }
           [hook_register_callouts] ++
             (if l2.actual_input_length < env.header_size then
                Done_locals { l2 with status := STATUS_INVALID_PARAMETER } output_buffer_length
              else
                let props := env.get_properties env.request_id
                let l3 := { l2 with status := ebpf_error_code_to_ntstatus props.result }
                [get_protocol_handler_properties env.request_id] ++
                  (if l3.status ≠ STATUS_SUCCESS then Done_locals l3 output_buffer_length
                   else dispatch_with_reply_locals env output_buffer_length
                     props.minimum_reply_size l3)))
    else
      Done_locals { l0 with status := NDIS_STATUS_INVALID_PARAMETER } output_buffer_length
  else Done_locals l0 output_buffer_length

/-! ## The generated sample `tail_call_multiple_raw.c` -/

/-- The macro `POINTER(x)` of `bpf2c.h`: the address as a 64-bit register value. -/
def POINTER (address : Nat) : Nat := address % 2 ^ 64

/-- The macro `IMMEDIATE(x)` of `bpf2c.h`: the immediate, sign-extended into a
64-bit register. -/
def IMMEDIATE (x : Int) : Nat := (x % 2 ^ 64).toNat

/-- The map kinds of `enum bpf_map_type` (`ebpf_structs.h`); the sample uses one,
`other v` stands for the remaining enumerators. -/
inductive bpf_map_type where
  | BPF_MAP_TYPE_PROG_ARRAY
  | other (value : Nat)
  deriving DecidableEq, Repr

/-- The pinning kinds of `enum ebpf_pin_type`; the sample uses `LIBBPF_PIN_NONE`. -/
inductive ebpf_pin_type_t where
  | LIBBPF_PIN_NONE
  | other (value : Nat)
  deriving DecidableEq, Repr

/-- The map definition record of a `map_entry_t`, fields in initializer order. -/
structure ebpf_map_definition_in_file_t where
  type : bpf_map_type
  key_size : Nat
  value_size : Nat
  max_entries : Nat
  inner_map_idx : Nat
  pinning : ebpf_pin_type_t
  id : Nat
  inner_id : Nat
  deriving DecidableEq, Repr

/-- An entry of the array `_maps`: the address the loader fills in (`NULL`, 0,
in the initializer), the definition and the name. -/
structure map_entry_t where
  address : Nat
  definition : ebpf_map_definition_in_file_t
  name : String
  deriving DecidableEq, Repr

/-- An entry of the arrays `caller_helpers` / `callee0_helpers`. The initializer
gives `{NULL, 5, "helper_id_5"}`; the loader fills in `address` (the helper, a
function of the five argument registers) and `tail_call`. -/
structure helper_function_entry_t where
  address : Nat → Nat → Nat → Nat → Nat → Nat
  helper_id : Nat
  name : String
  tail_call : Bool

/-- One call of a helper made by a program: the helper id and the registers
`r1` .. `r5` passed. -/
structure helper_call where
  helper_id : Nat
  r1 : Nat
  r2 : Nat
  r3 : Nat
  r4 : Nat
  r5 : Nat
  deriving DecidableEq, Repr

/-- What running one program gives: the value returned and the helper calls
made, in order. -/
structure program_run where
  return_value : Nat
  helper_calls : List helper_call
  deriving DecidableEq, Repr

/-- The array `_maps` of the sample, with the address the loader stored in its
only entry. -/
def _maps (address : Nat) : List map_entry_t :=
  [{ address := address,
     definition :=
       { type := bpf_map_type.BPF_MAP_TYPE_PROG_ARRAY, key_size := 4, value_size := 4,
         max_entries := 10, inner_map_idx := 0,
         pinning := ebpf_pin_type_t.LIBBPF_PIN_NONE, id := 10, inner_id := 0 },
     name := "map" }]

/-- The program `caller`; `map0` is `_maps[0]` and `helper0` is `caller_helpers[0]`.
The prologue zeroes `r0` .. `r5`; `r1`, `r2`, `r3` and `r0` are assigned before
they are read, `r4` and `r5` keep the prologue value. -/
def caller (map0 : map_entry_t) (helper0 : helper_function_entry_t) (context : Nat) :
    program_run :=
  let r4 : Nat := 0
  let r5 : Nat := 0
  let r1 := context
  let r2 := POINTER map0.address
  let r3 := IMMEDIATE 0
  let r0 := helper0.address r1 r2 r3 r4 r5 % 2 ^ 64
  let calls : List helper_call := [⟨helper0.helper_id, r1, r2, r3, r4, r5⟩]
  if helper0.tail_call = true ∧ r0 = 0 then
    { return_value := 0, helper_calls := calls }
  else
    let r0 := IMMEDIATE 1
    { return_value := r0, helper_calls := calls }

/-- The program `callee0`; `map0` is `_maps[0]` and `helper0` is
`callee0_helpers[0]`. -/
def callee0 (map0 : map_entry_t) (helper0 : helper_function_entry_t) (context : Nat) :
    program_run :=
  let r4 : Nat := 0
  let r5 : Nat := 0
  let r1 := context
  let r2 := POINTER map0.address
  let r3 := IMMEDIATE 9
  let r0 := helper0.address r1 r2 r3 r4 r5 % 2 ^ 64
  let calls : List helper_call := [⟨helper0.helper_id, r1, r2, r3, r4, r5⟩]
  if helper0.tail_call = true ∧ r0 = 0 then
    { return_value := 0, helper_calls := calls }
  else
    let r0 := IMMEDIATE 2
    { return_value := r0, helper_calls := calls }

/-- The program `callee1`: it loads the immediate 3 into `r0` and exits. -/
def callee1 (_context : Nat) : program_run :=
  let r0 := IMMEDIATE 3
  { return_value := r0, helper_calls := [] }

/-- A helper as the loader resolves it: a function of the registers `r1` .. `r5`. -/
abbrev helper_function := Nat → Nat → Nat → Nat → Nat → Nat

/-- The array `caller_helpers`, `{NULL, 5, "helper_id_5"}`, with the address and
the `tail_call` flag the loader stored in its only entry. -/
def caller_helpers (address : helper_function) (tail_call : Bool) :
    List helper_function_entry_t :=
  [{ address := address, helper_id := 5, name := "helper_id_5", tail_call := tail_call }]

/-- The array `callee0_helpers`, `{NULL, 5, "helper_id_5"}`, with the address and
the `tail_call` flag the loader stored in its only entry. -/
def callee0_helpers (address : helper_function) (tail_call : Bool) :
    List helper_function_entry_t :=
  [{ address := address, helper_id := 5, name := "helper_id_5", tail_call := tail_call }]

/-- The array `caller_maps` of map indices. -/
def caller_maps : List Nat := [0]

/-- The array `callee0_maps` of map indices. -/
def callee0_maps : List Nat := [0]

/-- A `GUID`: `Data1`, `Data2`, `Data3` and the eight bytes of `Data4`. -/
structure GUID where
  Data1 : Nat
  Data2 : Nat
  Data3 : Nat
  Data4 : List Nat
  deriving DecidableEq, Repr

def caller_program_type_guid : GUID :=
  ⟨0xce8ccef8, 0x4241, 0x4975, [0x98, 0x4d, 0xbb, 0x39, 0x21, 0xdf, 0xa7, 0x3c]⟩
def caller_attach_type_guid : GUID :=
  ⟨0x0dccc15d, 0xa5f9, 0x4dc1, [0xac, 0x79, 0xfa, 0x25, 0xee, 0xf2, 0x15, 0xc3]⟩
def callee0_program_type_guid : GUID :=
  ⟨0xce8ccef8, 0x4241, 0x4975, [0x98, 0x4d, 0xbb, 0x39, 0x21, 0xdf, 0xa7, 0x3c]⟩
def callee0_attach_type_guid : GUID :=
  ⟨0x0dccc15d, 0xa5f9, 0x4dc1, [0xac, 0x79, 0xfa, 0x25, 0xee, 0xf2, 0x15, 0xc3]⟩
def callee1_program_type_guid : GUID :=
  ⟨0xce8ccef8, 0x4241, 0x4975, [0x98, 0x4d, 0xbb, 0x39, 0x21, 0xdf, 0xa7, 0x3c]⟩
def callee1_attach_type_guid : GUID :=
  ⟨0x0dccc15d, 0xa5f9, 0x4dc1, [0xac, 0x79, 0xfa, 0x25, 0xee, 0xf2, 0x15, 0xc3]⟩

/-- The three functions an entry of `_programs` can point to. -/
inductive program_function where
  | caller
  | callee0
  | callee1
  deriving DecidableEq, Repr

/-- An entry of the array `_programs`, fields in initializer order. The two array
pointers are `none` for `NULL`; the function pointer is kept as the name of the
function pointed to, the two GUID pointers as the GUIDs pointed to. -/
structure program_entry_t where
  zero : Nat
  function : program_function
  pe_section_name : String
  section_name : String
  program_name : String
  referenced_map_indices : Option (List Nat)
  referenced_map_count : Nat
  helpers : Option (List helper_function_entry_t)
  helper_count : Nat
  bpf_instruction_count : Nat
  program_type : GUID
  expected_attach_type : GUID

/-- What the loader stored in the helper arrays of the sample: for each of the
two arrays, the address and the `tail_call` flag of its entry. -/
structure resolved_helpers where
  caller_address : helper_function
  caller_tail_call : Bool
  callee0_address : helper_function
  callee0_tail_call : Bool

/-- The array `_programs` of the sample. -/
def _programs (r : resolved_helpers) : List program_entry_t :=
  [{ zero := 0, function := program_function.caller, pe_section_name := "xdp_prog",
     section_name := "xdp_prog", program_name := "caller",
     referenced_map_indices := some caller_maps, referenced_map_count := 1,
     helpers := some (caller_helpers r.caller_address r.caller_tail_call),
     helper_count := 1, bpf_instruction_count := 6,
     program_type := caller_program_type_guid,
     expected_attach_type := caller_attach_type_guid },
   { zero := 0, function := program_function.callee0, pe_section_name := "xdp_pr~1",
     section_name := "xdp_prog/0", program_name := "callee0",
     referenced_map_indices := some callee0_maps, referenced_map_count := 1,
     helpers := some (callee0_helpers r.callee0_address r.callee0_tail_call),
     helper_count := 1, bpf_instruction_count := 6,
     program_type := callee0_program_type_guid,
     expected_attach_type := callee0_attach_type_guid },
   { zero := 0, function := program_function.callee1, pe_section_name := "xdp_pr~2",
     section_name := "xdp_prog/1", program_name := "callee1",
     referenced_map_indices := none, referenced_map_count := 0,
     helpers := none, helper_count := 0, bpf_instruction_count := 2,
     program_type := callee1_program_type_guid,
     expected_attach_type := callee1_attach_type_guid }]

/-- The function `_get_programs`: it writes `_programs` and the count 3. -/
def _get_programs (r : resolved_helpers) : List program_entry_t × Nat :=
  (_programs r, 3)

/-- The function `_get_maps`: it writes `_maps` and the count 1. -/
def _get_maps (address : Nat) : List map_entry_t × Nat :=
  (_maps address, 1)

/-- The number of elements of an array given by pointer, 0 for `NULL`. -/
def array_length {α : Type} (array : Option (List α)) : Nat :=
  match array with
  | some elements => elements.length
  | none => 0

/-- The map indices an entry of `_programs` references, none for `NULL`. -/
def referenced_maps (entry : program_entry_t) : List Nat :=
  match entry.referenced_map_indices with
  | some indices => indices
  | none => []

/-! ## The routine `EbpfCoreInitDriverObjects` -/

/-- Everything `EbpfCoreInitDriverObjects` obtains from outside itself: the
statuses of the WDF calls, whether `WdfControlDeviceInitAllocate` returned a
non-NULL pointer, the result of `ebpf_core_initiate`, and whether the caller's
out-pointer `device` is non-NULL. -/
structure init_environment where
  driver_create : NTSTATUS
  device_init_allocated : Bool
  device_create : NTSTATUS
  create_symbolic_link : NTSTATUS
  io_queue_create : NTSTATUS
  core_initiate : ebpf_error_code_t
  device_non_null : Bool
  deriving DecidableEq, Repr

/-- The calls `EbpfCoreInitDriverObjects` makes that create, finish or release an
object, and the call of `ebpf_core_initiate`. -/
inductive init_event where
  | WdfDriverCreate
  | WdfControlDeviceInitAllocate
  | WdfDeviceCreate
  | WdfDeviceInitFree
  | WdfDeviceCreateSymbolicLink
  | WdfIoQueueCreate
  | ebpf_core_initiate
  | WdfControlFinishInitializing
  | WdfObjectDelete
  deriving DecidableEq, Repr

/-- The label `Exit:` of `EbpfCoreInitDriverObjects`: on a failing status the
device is deleted if `device_create_flag && device != NULL`; the status is
returned. -/
def Exit_init (status : NTSTATUS) (device_create_flag device_non_null : Bool) :
    NTSTATUS × List init_event :=
  (status,
   if NT_SUCCESS status = false then
     if (device_create_flag && device_non_null) = true then [init_event.WdfObjectDelete]
     else []
   else [])

/-- Append the calls made so far in front of what the rest of the routine gives. -/
def after_calls (calls : List init_event) (rest : NTSTATUS × List init_event) :
    NTSTATUS × List init_event :=
  (rest.1, calls ++ rest.2)

/-- The routine `EbpfCoreInitDriverObjects` of `ebpf_drv.c`: the status returned
and the calls made, in order. -/
def EbpfCoreInitDriverObjects (env : init_environment) : NTSTATUS × List init_event :=
  let device_create_flag := false
  let status := env.driver_create
  after_calls [init_event.WdfDriverCreate] <|
  if NT_SUCCESS status = false then Exit_init status device_create_flag env.device_non_null
  else
    after_calls [init_event.WdfControlDeviceInitAllocate] <|
    if env.device_init_allocated = false then
      let status := STATUS_INSUFFICIENT_RESOURCES
      Exit_init status device_create_flag env.device_non_null
    else
      let status := env.device_create
      after_calls [init_event.WdfDeviceCreate] <|
      if NT_SUCCESS status = false then
        after_calls [init_event.WdfDeviceInitFree] <|
        Exit_init status device_create_flag env.device_non_null
      else
        let device_create_flag := true
        let status := env.create_symbolic_link
        after_calls [init_event.WdfDeviceCreateSymbolicLink] <|
        if NT_SUCCESS status = false then
          Exit_init status device_create_flag env.device_non_null
        else
          let status := env.io_queue_create
          after_calls [init_event.WdfIoQueueCreate] <|
          if NT_SUCCESS status = false then
            Exit_init status device_create_flag env.device_non_null
          else
            let status := ebpf_error_code_to_ntstatus env.core_initiate
            after_calls [init_event.ebpf_core_initiate] <|
            if NT_SUCCESS status = false then
              Exit_init status device_create_flag env.device_non_null
            else
              after_calls [init_event.WdfControlFinishInitializing] <|
              Exit_init status device_create_flag env.device_non_null

/-- Whether every step of `EbpfCoreInitDriverObjects` succeeded. -/
def every_step_succeeded (env : init_environment) : Bool :=
  NT_SUCCESS env.driver_create && env.device_init_allocated && NT_SUCCESS env.device_create &&
    NT_SUCCESS env.create_symbolic_link && NT_SUCCESS env.io_queue_create &&
    NT_SUCCESS (ebpf_error_code_to_ntstatus env.core_initiate)

/-- Whether `WdfDeviceCreate` was reached and succeeded. -/
def device_created (env : init_environment) : Bool :=
  NT_SUCCESS env.driver_create && env.device_init_allocated && NT_SUCCESS env.device_create

/-! ## The records of `api_internal.h` -/

/-- The handle type `ebpf_handle_t`. -/
abbrev ebpf_handle_t := Int

/-- The descriptor type `fd_t`. -/
abbrev fd_t := Int

/-- The record `bpf_program` (`ebpf_program_t`). Pointers are addresses; the two
GUID-valued type fields are kept as numbers. -/
structure bpf_program where
  object : Nat
  section_name : Option String
  program_name : Option String
  byte_code : List Nat
  byte_code_size : Nat
  program_type : Nat
  attach_type : Nat
  handle : ebpf_handle_t
  fd : fd_t
  pinned : Bool
  deriving DecidableEq, Repr

/-- The record `bpf_object` (`ebpf_object_t`) with its default member
initializers: `object_name = nullptr`, two empty vectors, `loaded = false`. The
vectors hold pointers, kept as the addresses of the records pointed to. -/
structure bpf_object where
  object_name : Option String := none
  programs : List Nat := []
  maps : List Nat := []
  loaded : Bool := false
  deriving DecidableEq, Repr

/-- Whether the program record stored at `address` exists and carries a handle
other than `ebpf_handle_invalid`, the constant of `ebpf_api.h` that marks an
unset handle. `memory` maps an address to the `bpf_program` stored there. -/
def program_has_valid_handle (ebpf_handle_invalid : ebpf_handle_t)
    (memory : Nat → Option bpf_program) (address : Nat) : Bool :=
  match memory address with
  | some program => program.handle != ebpf_handle_invalid
  | none => false

/-- Whether every program contained in the object has a valid handle. -/
def every_program_has_valid_handle (ebpf_handle_invalid : ebpf_handle_t)
    (memory : Nat → Option bpf_program) (object : bpf_object) : Bool :=
  object.programs.all (program_has_valid_handle ebpf_handle_invalid memory)

/-! ## Iteration over an object's programs and maps -/

/-- Modelled from the spec: the scan shared by the `_next` iterators, whose bodies
are not among the sources. It yields the entry that follows the first occurrence
of `cursor` in the sequence, NULL (`none`) if there is none. -/
def successor_of (cursor : Nat) : List Nat → Option Nat
  | [] => none
  | x :: rest => if x = cursor then rest.head? else successor_of cursor rest

/-- Modelled from the spec: the scan shared by the `_previous` iterators, whose
bodies are not among the sources. It yields the entry that precedes the first
occurrence of `cursor` in the sequence, NULL (`none`) if there is none. -/
def predecessor_of (cursor : Nat) : List Nat → Option Nat
  | [] => none
  | [_] => none
  | x :: y :: rest => if y = cursor then some x else predecessor_of cursor (y :: rest)

/-- Modelled from the spec: `ebpf_program_next` is declared in `api_internal.h`
and its body is not among the sources. The iteration contract: a null cursor
yields the first program of the object's ordered sequence, a live cursor yields
its successor, and the result is NULL (`none`) if there is none. -/
def ebpf_program_next (previous : Option Nat) (object : bpf_object) : Option Nat :=
  match previous with
  | none => object.programs.head?
  | some p => successor_of p object.programs

/-- Modelled from the spec: `ebpf_program_previous` is declared in
`api_internal.h` and its body is not among the sources. A null cursor yields the
last program, a live cursor yields its predecessor, NULL if there is none. -/
def ebpf_program_previous (next : Option Nat) (object : bpf_object) : Option Nat :=
  match next with
  | none => object.programs.getLast?
  | some p => predecessor_of p object.programs

/-- Modelled from the spec: `ebpf_map_next` is declared in `api_internal.h` and
its body is not among the sources. Same contract as `ebpf_program_next`, over
the object's maps. -/
def ebpf_map_next (previous : Option Nat) (object : bpf_object) : Option Nat :=
  match previous with
  | none => object.maps.head?
  | some m => successor_of m object.maps

/-- Modelled from the spec: `ebpf_map_previous` is declared in `api_internal.h`
and its body is not among the sources. Same contract as `ebpf_program_previous`,
over the object's maps. -/
def ebpf_map_previous (next : Option Nat) (object : bpf_object) : Option Nat :=
  match next with
  | none => object.maps.getLast?
  | some m => predecessor_of m object.maps

/-! ## Enumeration of program IDs -/

/-- The result codes of `ebpf_result_t` that the `@retval` lines of
`api_internal.h` name. -/
inductive ebpf_result_t where
  | EBPF_SUCCESS
  | EBPF_INVALID_ARGUMENT
  | EBPF_NO_MEMORY
  | EBPF_NO_MORE_KEYS
  | EBPF_INVALID_FD
  | EBPF_INVALID_PARAMETER
  deriving DecidableEq, Repr

/-- Modelled from the spec: the search behind `ebpf_get_next_program_id`, whose
body is not among the sources. One pass over the table of live IDs, keeping the
smallest ID seen so far that is strictly greater than `start_id`. -/
def smallest_above (start_id : Nat) : List Nat → Option Nat
  | [] => none
  | id :: rest =>
    match smallest_above start_id rest with
    | none => if start_id < id then some id else none
    | some best => if start_id < id ∧ id < best then some id else some best

/-- Modelled from the spec: `ebpf_get_next_program_id` is declared in
`api_internal.h` and its body is not among the sources. It looks for the next
program ID greater than `start_id` among the live IDs: `.ok next_id` is
`EBPF_SUCCESS` with `*next_id` written, and `EBPF_NO_MORE_KEYS` is returned when
no more IDs are found. -/
def ebpf_get_next_program_id (live : List Nat) (start_id : Nat) :
    Except ebpf_result_t Nat :=
  match smallest_above start_id live with
  | some next_id => .ok next_id
  | none => .error ebpf_result_t.EBPF_NO_MORE_KEYS

/-- The walk of the claim: call `ebpf_get_next_program_id` with `start_id`, then
with each ID returned, at most `fuel` times. The result is the IDs visited, in
the order returned, and the error that ended the walk (`none` if the walk was
cut short by `fuel`). -/
def enumerate_program_ids (live : List Nat) : Nat → Nat → List Nat × Option ebpf_result_t
  | 0, _ => ([], none)
  | fuel + 1, start_id =>
    match ebpf_get_next_program_id live start_id with
    | .ok next_id =>
      let rest := enumerate_program_ids live fuel next_id
      (next_id :: rest.1, rest.2)
    | .error e => ([], some e)

/-! ## The driver `netebpfext/sys/net_ebpf_ext_drv.c` -/

namespace netebpfext

/-- Everything the `DriverEntry` of `net_ebpf_ext_drv.c` obtains from outside the
file: the status of `net_ebpf_ext_trace_initiate`, the results of
`ebpf_platform_initiate` and `ebpf_random_initiate`, the translation
`ebpf_result_to_ntstatus` (declared in `ebpf_platform.h`), and what the calls made
by `_net_ebpf_ext_driver_initialize_objects` answer. -/
structure environment where
  trace_initiate : NTSTATUS
  platform_initiate : ebpf_result_t
  random_initiate : ebpf_result_t
  ebpf_result_to_ntstatus : ebpf_result_t → NTSTATUS
  driver_create : NTSTATUS
  device_init_allocated : Bool
  assign_name : NTSTATUS
  device_create : NTSTATUS
  initialize_ndis_handles : NTSTATUS
  initialize_wfp_components : NTSTATUS
  register_providers : NTSTATUS

/-- The calls made in one execution of `DriverEntry`, those of the two routines
of the file it calls included. -/
inductive event where
  | net_ebpf_ext_trace_initiate
  | ebpf_platform_initiate
  | ebpf_random_initiate
  | driver_initialize_objects
  | WdfDriverCreate
  | WdfControlDeviceInitAllocate
  | WdfDeviceInitAssignName
  | WdfDeviceCreate
  | WdfDeviceInitFree
  | net_ebpf_ext_initialize_ndis_handles
  | net_ebpf_extension_initialize_wfp_components
  | net_ebpf_ext_register_providers
  | WdfControlFinishInitializing
  | driver_uninitialize_objects
  | net_ebpf_ext_unregister_providers
  | net_ebpf_extension_uninitialize_wfp_components
  | net_ebpf_ext_uninitialize_ndis_handles
  | ebpf_random_terminate
  | ebpf_platform_terminate
  | net_ebpf_ext_trace_terminate
  | WdfObjectDelete
  deriving DecidableEq, Repr

/-- What `_net_ebpf_ext_driver_initialize_objects` leaves behind: the status it
returns, whether the global `_net_ebpf_ext_device` is non-NULL afterwards, and
the calls it made. -/
structure objects_result where
  status : NTSTATUS
  device_non_null : Bool
  calls : List event
  deriving DecidableEq, Repr

/-- The routine `_net_ebpf_ext_driver_initialize_objects`. The global
`_net_ebpf_ext_device`, NULL at load, is written by a successful
`WdfDeviceCreate`; the result of `net_ebpf_extension_initialize_wfp_components`
is cast to `void`. -/
def _net_ebpf_ext_driver_initialize_objects (env : environment) : objects_result :=
  let status := env.driver_create
  if NT_SUCCESS status = false then ⟨status, false, [event.WdfDriverCreate]⟩
  else if env.device_init_allocated = false then
    ⟨STATUS_INSUFFICIENT_RESOURCES, false,
      [event.WdfDriverCreate, event.WdfControlDeviceInitAllocate]⟩
  else
    let status := env.assign_name
    if NT_SUCCESS status = false then
      ⟨status, false,
        [event.WdfDriverCreate, event.WdfControlDeviceInitAllocate,
         event.WdfDeviceInitAssignName]⟩
    else
      let status := env.device_create
      if NT_SUCCESS status = false then
        ⟨status, false,
          [event.WdfDriverCreate, event.WdfControlDeviceInitAllocate,
           event.WdfDeviceInitAssignName, event.WdfDeviceCreate, event.WdfDeviceInitFree]⟩
      else
        let status := env.initialize_ndis_handles
        if NT_SUCCESS status = false then
          ⟨status, true,
            [event.WdfDriverCreate, event.WdfControlDeviceInitAllocate,
             event.WdfDeviceInitAssignName, event.WdfDeviceCreate,
             event.net_ebpf_ext_initialize_ndis_handles]⟩
        else
          let status := env.register_providers
          if NT_SUCCESS status = false then
            ⟨status, true,
              [event.WdfDriverCreate, event.WdfControlDeviceInitAllocate,
               event.WdfDeviceInitAssignName, event.WdfDeviceCreate,
               event.net_ebpf_ext_initialize_ndis_handles,
               event.net_ebpf_extension_initialize_wfp_components,
               event.net_ebpf_ext_register_providers]⟩
          else
            ⟨status, true,
              [event.WdfDriverCreate, event.WdfControlDeviceInitAllocate,
               event.WdfDeviceInitAssignName, event.WdfDeviceCreate,
               event.net_ebpf_ext_initialize_ndis_handles,
               event.net_ebpf_extension_initialize_wfp_components,
               event.net_ebpf_ext_register_providers, event.WdfControlFinishInitializing]⟩

/-- The routine `_net_ebpf_ext_driver_uninitialize_objects`, given whether the
global `_net_ebpf_ext_device` is non-NULL: the calls it makes, in order. -/
def _net_ebpf_ext_driver_uninitialize_objects (device_non_null : Bool) : List event :=
  [event.net_ebpf_ext_unregister_providers,
   event.net_ebpf_extension_uninitialize_wfp_components,
   event.net_ebpf_ext_uninitialize_ndis_handles,
   event.ebpf_random_terminate,
   event.ebpf_platform_terminate,
   event.net_ebpf_ext_trace_terminate] ++
    (if device_non_null = true then [event.WdfObjectDelete] else [])

/-- The label `Exit:` of `DriverEntry`: on a failing status
`_net_ebpf_ext_driver_uninitialize_objects` is called; the status is returned. -/
def Exit (status : NTSTATUS) (device_non_null : Bool) (calls : List event) :
    NTSTATUS × List event :=
  (status,
   calls ++
     (if NT_SUCCESS status = false then
        event.driver_uninitialize_objects ::
          _net_ebpf_ext_driver_uninitialize_objects device_non_null
      else []))

/-- The routine `DriverEntry` of `net_ebpf_ext_drv.c`: the status returned and
the calls made, in order. -/
def DriverEntry (env : environment) : NTSTATUS × List event :=
  let status := env.trace_initiate
  if NT_SUCCESS status = false then Exit status false [event.net_ebpf_ext_trace_initiate]
  else
    let status := env.ebpf_result_to_ntstatus env.platform_initiate
    if NT_SUCCESS status = false then
      Exit status false [event.net_ebpf_ext_trace_initiate, event.ebpf_platform_initiate]
    else
      let status := env.ebpf_result_to_ntstatus env.random_initiate
      if NT_SUCCESS status = false then
        Exit status false
          [event.net_ebpf_ext_trace_initiate, event.ebpf_platform_initiate,
           event.ebpf_random_initiate]
      else
        let objects := _net_ebpf_ext_driver_initialize_objects env
        let status := objects.status
        Exit status objects.device_non_null
          ([event.net_ebpf_ext_trace_initiate, event.ebpf_platform_initiate,
            event.ebpf_random_initiate, event.driver_initialize_objects] ++ objects.calls)

/-- The four steps of `DriverEntry`. -/
def is_step : event → Bool
  | event.net_ebpf_ext_trace_initiate => true
  | event.ebpf_platform_initiate => true
  | event.ebpf_random_initiate => true
  | event.driver_initialize_objects => true
  | _ => false

/-- The three terminate routines. -/
def is_terminate : event → Bool
  | event.ebpf_random_terminate => true
  | event.ebpf_platform_terminate => true
  | event.net_ebpf_ext_trace_terminate => true
  | _ => false

/-- The steps of `DriverEntry` that the execution ran, in order. -/
def steps_run (calls : List event) : List event := calls.filter is_step

/-- The terminate routines that the execution called, in order. -/
def terminate_calls (calls : List event) : List event := calls.filter is_terminate

/-- Whether `terminate` is called in the execution only after a call of
`initiate`, and only if that initiate routine succeeded. -/
def terminate_only_after_success (calls : List event) (initiate terminate : event)
    (initiate_succeeded : Bool) : Bool :=
  !calls.contains terminate ||
    ((calls.takeWhile (fun e => e != terminate)).contains initiate && initiate_succeeded)

/-- The property that each of the three terminate routines is called only if the
initiate routine of the same component was called earlier in the execution and
succeeded. -/
def terminates_only_initiated (env : environment) : Bool :=
  terminate_only_after_success (DriverEntry env).2 event.net_ebpf_ext_trace_initiate
      event.net_ebpf_ext_trace_terminate (NT_SUCCESS env.trace_initiate) &&
    terminate_only_after_success (DriverEntry env).2 event.ebpf_platform_initiate
      event.ebpf_platform_terminate
      (NT_SUCCESS (env.ebpf_result_to_ntstatus env.platform_initiate)) &&
    terminate_only_after_success (DriverEntry env).2 event.ebpf_random_initiate
      event.ebpf_random_terminate
      (NT_SUCCESS (env.ebpf_result_to_ntstatus env.random_initiate))

/-- The status of the step `ebpf_platform_initiate`, translated. -/
def platform_status (env : environment) : NTSTATUS :=
  env.ebpf_result_to_ntstatus env.platform_initiate

/-- The status of the step `ebpf_random_initiate`, translated. -/
def random_status (env : environment) : NTSTATUS :=
  env.ebpf_result_to_ntstatus env.random_initiate

/-- The status of the step `_net_ebpf_ext_driver_initialize_objects`. -/
def objects_status (env : environment) : NTSTATUS :=
  (_net_ebpf_ext_driver_initialize_objects env).status

/-- How many times the execution calls `_net_ebpf_ext_driver_uninitialize_objects`. -/
def uninitialize_count (calls : List event) : Nat :=
  calls.count event.driver_uninitialize_objects

end netebpfext

/-! ## Concrete inputs -/

/-- A buffered request with an 8-byte operation header and operation id 3: the
input buffer is retrieved with `input_length` bytes, the property lookup answers
`properties`, the output buffer retrieval answers `output`, and the handler
answers `reply`. -/
def sample_environment (input_length : Nat) (properties : handler_properties)
    (output : buffer_result) (reply : ebpf_error_code_t) : io_environment :=
  { header_size := 8
    retrieve_input := fun _ => ⟨STATUS_SUCCESS, true, input_length⟩
    register_callouts := STATUS_SUCCESS
    request_id := 3
    request_id_after := 3
    get_properties := fun _ => properties
    retrieve_output := fun _ => output
    invoke_handler := fun _ _ _ => reply }

/-- The entry `_maps[0]` of the sample after the loader stored `address` in it. -/
def sample_map_entry (address : Nat) : map_entry_t :=
  match _maps address with
  | entry :: _ => entry
  | [] => ⟨0, ⟨bpf_map_type.other 0, 0, 0, 0, 0, ebpf_pin_type_t.other 0, 0, 0⟩, ""⟩

/-- The entry `{NULL, 5, "helper_id_5"}` of `caller_helpers` / `callee0_helpers`
after the loader resolved it to a helper that always returns `result`. -/
def sample_helper_entry (result : Nat) (tail_call : Bool) : helper_function_entry_t :=
  { address := fun _ _ _ _ _ => result, helper_id := 5, name := "helper_id_5",
    tail_call := tail_call }

/-- A memory holding one program record, at address 4096, whose handle is -1. -/
def sample_memory (address : Nat) : Option bpf_program :=
  if address = 4096 then
    some { object := 8192, section_name := some "xdp_prog", program_name := some "caller",
           byte_code := [], byte_code_size := 0, program_type := 0, attach_type := 0,
           handle := -1, fd := -1, pinned := false }
  else none

/-- An opened object that is not loaded: one program, at address 4096. -/
def sample_unloaded_object : bpf_object :=
  { object_name := some "tail_call_multiple", programs := [4096], maps := [12288],
    loaded := false }

/-- An object with three programs and two maps, each at an address of its own. -/
def sample_iteration_object : bpf_object :=
  { object_name := some "tail_call_multiple", programs := [4096, 4160, 4224],
    maps := [12288, 12352], loaded := true }

/-- Helper arrays as a loader may have resolved them: the helper of `caller`
returns 1 and is flagged `tail_call`, the helper of `callee0` returns 0 and is
not flagged. -/
def sample_resolved_helpers : resolved_helpers :=
  { caller_address := fun _ _ _ _ _ => 1, caller_tail_call := true,
    callee0_address := fun _ _ _ _ _ => 0, callee0_tail_call := false }

/-- The third entry of `_programs`, the one of `callee1`. -/
def sample_callee1_entry : program_entry_t :=
  (_programs sample_resolved_helpers).get ⟨2, by decide⟩

/-- An execution of the `netebpfext` driver: every call answers success (and
`ebpf_result_to_ntstatus` translates every result to `STATUS_SUCCESS`), except
that `net_ebpf_ext_trace_initiate` answers `trace_status` and the provider
registration answers `providers_status`. -/
def sample_netebpfext_environment (trace_status providers_status : NTSTATUS) :
    netebpfext.environment :=
  { trace_initiate := trace_status
    platform_initiate := ebpf_result_t.EBPF_SUCCESS
    random_initiate := ebpf_result_t.EBPF_SUCCESS
    ebpf_result_to_ntstatus := fun _ => STATUS_SUCCESS
    driver_create := STATUS_SUCCESS
    device_init_allocated := true
    assign_name := STATUS_SUCCESS
    device_create := STATUS_SUCCESS
    initialize_ndis_handles := STATUS_SUCCESS
    initialize_wfp_components := STATUS_SUCCESS
    register_providers := providers_status }

/-! ## Properties -/

/-! ### Helper lemmas -/

/-- Only `EBPF_ERROR_SUCCESS` is translated to `STATUS_SUCCESS`. -/
theorem to_ntstatus_eq_success_iff (e : ebpf_error_code_t) :
    ebpf_error_code_to_ntstatus e = STATUS_SUCCESS ↔ e = EBPF_ERROR_SUCCESS := by
  cases e <;> simp [ebpf_error_code_to_ntstatus, STATUS_SUCCESS, STATUS_INSUFFICIENT_RESOURCES,
    STATUS_NOT_FOUND, STATUS_INVALID_PARAMETER, STATUS_NOT_SUPPORTED, STATUS_NO_MORE_MATCHES,
    STATUS_INVALID_HANDLE]

/-- The runs of the reply stage, path by path. -/
theorem dispatch_with_reply_cases (env : io_environment) (obl min_reply : Nat)
    (P : List io_event → Prop)
    (h_out_fail : 0 < min_reply → NT_SUCCESS (env.retrieve_output obl).status = false →
      P [retrieve_output_buffer obl,
         complete_with_information (env.retrieve_output obl).status obl])
    (h_out_null : 0 < min_reply → NT_SUCCESS (env.retrieve_output obl).status = true →
      (env.retrieve_output obl).non_null = false →
      P [retrieve_output_buffer obl, complete_with_information STATUS_INVALID_PARAMETER obl])
    (h_out_small : 0 < min_reply → NT_SUCCESS (env.retrieve_output obl).status = true →
      (env.retrieve_output obl).non_null = true →
      (env.retrieve_output obl).actual_length < min_reply →
      P [retrieve_output_buffer obl, complete_with_information STATUS_BUFFER_TOO_SMALL obl])
    (h_reply_ok : 0 < min_reply → NT_SUCCESS (env.retrieve_output obl).status = true →
      (env.retrieve_output obl).non_null = true →
      min_reply ≤ (env.retrieve_output obl).actual_length →
      env.invoke_handler env.request_id true
        (to_uint16 (env.retrieve_output obl).actual_length) = EBPF_ERROR_SUCCESS →
      P [retrieve_output_buffer obl,
         invoke_protocol_handler env.request_id true
           (to_uint16 (env.retrieve_output obl).actual_length),
         write_reply_header env.request_id_after
           (to_uint16 (env.retrieve_output obl).actual_length),
         complete_with_information STATUS_SUCCESS obl])
    (h_reply_fail : 0 < min_reply → NT_SUCCESS (env.retrieve_output obl).status = true →
      (env.retrieve_output obl).non_null = true →
      min_reply ≤ (env.retrieve_output obl).actual_length →
      env.invoke_handler env.request_id true
        (to_uint16 (env.retrieve_output obl).actual_length) ≠ EBPF_ERROR_SUCCESS →
      P [retrieve_output_buffer obl,
         invoke_protocol_handler env.request_id true
           (to_uint16 (env.retrieve_output obl).actual_length),
         complete_with_information
           (ebpf_error_code_to_ntstatus (env.invoke_handler env.request_id true
             (to_uint16 (env.retrieve_output obl).actual_length))) obl])
    (h_no_reply : min_reply = 0 →
      P [invoke_protocol_handler env.request_id false (to_uint16 0),
         complete_with_information
           (ebpf_error_code_to_ntstatus
             (env.invoke_handler env.request_id false (to_uint16 0))) obl]) :
    P (dispatch_with_reply env obl min_reply) := by
  unfold dispatch_with_reply
  dsimp only
  by_cases h0 : min_reply > 0
  · rw [if_pos h0]
    by_cases h1 : NT_SUCCESS (env.retrieve_output obl).status = false
    · rw [if_pos h1]
      exact h_out_fail h0 h1
    · rw [if_neg h1]
      have h1' : NT_SUCCESS (env.retrieve_output obl).status = true := by
        simpa using h1
      by_cases h2 : (env.retrieve_output obl).non_null = false
      · rw [if_pos h2]
        exact h_out_null h0 h1' h2
      · rw [if_neg h2]
        have h2' : (env.retrieve_output obl).non_null = true := by simpa using h2
        by_cases h3 : (env.retrieve_output obl).actual_length < min_reply
        · rw [if_pos h3]
          exact h_out_small h0 h1' h2' h3
        · rw [if_neg h3]
          by_cases h4 : env.invoke_handler env.request_id true
              (to_uint16 (env.retrieve_output obl).actual_length) = EBPF_ERROR_SUCCESS
          · have := h_reply_ok h0 h1' h2' (by omega) h4
            simpa [h4, ebpf_error_code_to_ntstatus, Done] using this
          · have := h_reply_fail h0 h1' h2' (by omega) h4
            simpa [h4, to_ntstatus_eq_success_iff, Done] using this
  · rw [if_neg h0]
    have := h_no_reply (by omega)
    simpa [Done] using this

/-- The runs of `EbpfCoreEvtIoDeviceControl`, path by path, up to the reply stage. -/
theorem EbpfCoreEvtIoDeviceControl_cases (env : io_environment) (obl ibl code : Nat)
    (P : List io_event → Prop)
    (h_other : code ≠ IOCTL_EBPFCTL_METHOD_BUFFERED →
      P [complete_with_information STATUS_SUCCESS obl])
    (h_zero : code = IOCTL_EBPFCTL_METHOD_BUFFERED → ibl = 0 →
      P [complete_with_information NDIS_STATUS_INVALID_PARAMETER obl])
    (h_in_fail : code = IOCTL_EBPFCTL_METHOD_BUFFERED → ibl ≠ 0 →
      NT_SUCCESS (env.retrieve_input ibl).status = false →
      P [retrieve_input_buffer ibl,
         complete_with_information (env.retrieve_input ibl).status obl])
    (h_in_null : code = IOCTL_EBPFCTL_METHOD_BUFFERED → ibl ≠ 0 →
      NT_SUCCESS (env.retrieve_input ibl).status = true →
      (env.retrieve_input ibl).non_null = false →
      P [retrieve_input_buffer ibl, complete_with_information STATUS_INVALID_PARAMETER obl])
    (h_short : code = IOCTL_EBPFCTL_METHOD_BUFFERED → ibl ≠ 0 →
      NT_SUCCESS (env.retrieve_input ibl).status = true →
      (env.retrieve_input ibl).non_null = true →
      (env.retrieve_input ibl).actual_length < env.header_size →
      P [retrieve_input_buffer ibl, hook_register_callouts,
         complete_with_information STATUS_INVALID_PARAMETER obl])
    (h_lookup_fail : code = IOCTL_EBPFCTL_METHOD_BUFFERED → ibl ≠ 0 →
      NT_SUCCESS (env.retrieve_input ibl).status = true →
      (env.retrieve_input ibl).non_null = true →
      env.header_size ≤ (env.retrieve_input ibl).actual_length →
      (env.get_properties env.request_id).result ≠ EBPF_ERROR_SUCCESS →
      P [retrieve_input_buffer ibl, hook_register_callouts,
         get_protocol_handler_properties env.request_id,
         complete_with_information
           (ebpf_error_code_to_ntstatus (env.get_properties env.request_id).result) obl])
    (h_dispatch : code = IOCTL_EBPFCTL_METHOD_BUFFERED → ibl ≠ 0 →
      NT_SUCCESS (env.retrieve_input ibl).status = true →
      (env.retrieve_input ibl).non_null = true →
      env.header_size ≤ (env.retrieve_input ibl).actual_length →
      (env.get_properties env.request_id).result = EBPF_ERROR_SUCCESS →
      P ([retrieve_input_buffer ibl, hook_register_callouts,
          get_protocol_handler_properties env.request_id] ++
         dispatch_with_reply env obl (env.get_properties env.request_id).minimum_reply_size)) :
    P (EbpfCoreEvtIoDeviceControl env obl ibl code) := by
  unfold EbpfCoreEvtIoDeviceControl
  dsimp only
  by_cases hc : code = IOCTL_EBPFCTL_METHOD_BUFFERED
  · rw [if_pos hc]
    by_cases hl : ibl ≠ 0
    · rw [if_pos hl]
      by_cases h1 : NT_SUCCESS (env.retrieve_input ibl).status = false
      · rw [if_pos h1]
        exact h_in_fail hc hl h1
      · rw [if_neg h1]
        have h1' : NT_SUCCESS (env.retrieve_input ibl).status = true := by simpa using h1
        by_cases h2 : (env.retrieve_input ibl).non_null = false
        · rw [if_pos h2]
          exact h_in_null hc hl h1' h2
        · rw [if_neg h2]
          have h2' : (env.retrieve_input ibl).non_null = true := by simpa using h2
          by_cases h3 : (env.retrieve_input ibl).actual_length < env.header_size
          · rw [if_pos h3]
            exact h_short hc hl h1' h2' h3
          · rw [if_neg h3]
            by_cases h4 : (env.get_properties env.request_id).result = EBPF_ERROR_SUCCESS
            · have h4' : ¬ ebpf_error_code_to_ntstatus
                  (env.get_properties env.request_id).result ≠ STATUS_SUCCESS := by
                simp [to_ntstatus_eq_success_iff, h4]
              rw [if_neg h4']
              exact h_dispatch hc hl h1' h2' (by omega) h4
            · have h4' : ebpf_error_code_to_ntstatus
                  (env.get_properties env.request_id).result ≠ STATUS_SUCCESS := by
                simp [to_ntstatus_eq_success_iff, h4]
              rw [if_pos h4']
              exact h_lookup_fail hc hl h1' h2' (by omega) h4
    · rw [if_neg hl]
      exact h_zero hc (by simpa using hl)
  · rw [if_neg hc]
    exact h_other hc

/-- A cursor that is not in the sequence has no predecessor. -/
theorem predecessor_of_not_mem (cursor : Nat) :
    ∀ xs : List Nat, cursor ∉ xs → predecessor_of cursor xs = none
  | [], _ => rfl
  | [_], _ => rfl
  | x :: y :: rest, h => by
    have hy : ¬ y = cursor := fun e => h (by simp [e])
    have hrest : cursor ∉ y :: rest := fun m => h (List.mem_cons_of_mem _ m)
    simp only [predecessor_of, if_neg hy]
    exact predecessor_of_not_mem cursor (y :: rest) hrest

/-- In a sequence without repetition, the successor of the entry at position `i`
is the entry at position `i + 1`. -/
theorem successor_of_getElem? (cursor : Nat) :
    ∀ (xs : List Nat) (i : Nat), xs.Nodup → xs[i]? = some cursor →
      successor_of cursor xs = xs[i + 1]?
  | [], i, _, h => by simp at h
  | x :: rest, 0, _, h => by
    have hx : x = cursor := by simpa using h
    simp [successor_of, hx, List.head?_eq_getElem?]
  | x :: rest, i + 1, hn, h => by
    have hrest : rest[i]? = some cursor := by simpa using h
    have hmem : cursor ∈ rest := List.getElem?_mem hrest
    have hx : ¬ x = cursor := fun e => (List.nodup_cons.mp hn).1 (e ▸ hmem)
    simp only [successor_of, if_neg hx]
    rw [successor_of_getElem? cursor rest i (List.nodup_cons.mp hn).2 hrest]
    simp

/-- In a sequence without repetition, the predecessor of the entry at position
`i` is the entry at position `i - 1`, and the first entry has none. -/
theorem predecessor_of_getElem? (cursor : Nat) :
    ∀ (xs : List Nat) (i : Nat), xs.Nodup → xs[i]? = some cursor →
      predecessor_of cursor xs = if i = 0 then none else xs[i - 1]?
  | [], i, _, h => by simp at h
  | [x], 0, _, _ => by simp [predecessor_of]
  | [x], i + 1, _, h => by simp at h
  | x :: y :: rest, 0, hn, h => by
    have hx : x = cursor := by simpa using h
    subst hx
    have hnot : x ∉ y :: rest := (List.nodup_cons.mp hn).1
    have hy : ¬ y = x := fun e => hnot (by simp [e])
    simp only [predecessor_of, if_neg hy, if_true]
    exact predecessor_of_not_mem x (y :: rest) hnot
  | x :: y :: rest, 1, _, h => by
    have hy : y = cursor := by simpa using h
    simp [predecessor_of, hy]
  | x :: y :: rest, i + 2, hn, h => by
    have hrest : rest[i]? = some cursor := by simpa using h
    have hmem : cursor ∈ rest := List.getElem?_mem hrest
    have hn' : (y :: rest).Nodup := (List.nodup_cons.mp hn).2
    have hy : ¬ y = cursor := fun e => (List.nodup_cons.mp hn').1 (e ▸ hmem)
    simp only [predecessor_of, if_neg hy]
    rw [predecessor_of_getElem? cursor (y :: rest) (i + 1) hn' (by simpa using hrest)]
    simp

/-- The pass finds nothing exactly when no ID in the table exceeds `start_id`. -/
theorem smallest_above_eq_none (start_id : Nat) :
    ∀ live : List Nat, smallest_above start_id live = none ↔ ∀ m ∈ live, m ≤ start_id
  | [] => by simp [smallest_above]
  | id :: rest => by
    have ih := smallest_above_eq_none start_id rest
    cases hr : smallest_above start_id rest with
    | none =>
      have hall := ih.mp hr
      by_cases hid : start_id < id
      · simp only [smallest_above, hr, if_pos hid]
        constructor
        · intro h
          cases h
        · intro h
          have := h id (List.mem_cons_self _ _)
          omega
      · simp only [smallest_above, hr, if_neg hid]
        constructor
        · intro _ m hm
          rcases List.mem_cons.mp hm with e | hm'
          · omega
          · exact hall m hm'
        · intro _
          trivial
    | some best =>
      have hne : ¬ ∀ m ∈ rest, m ≤ start_id := fun h => by
        have := ih.mpr h
        rw [hr] at this
        cases this
      simp only [smallest_above, hr]
      constructor
      · intro h
        split at h <;> cases h
      · intro h
        exact absurd (fun m hm => h m (List.mem_cons_of_mem _ hm)) hne

/-- What the pass finds is a table entry above `start_id`, and the least such. -/
theorem smallest_above_spec (start_id : Nat) :
    ∀ (live : List Nat) (n : Nat), smallest_above start_id live = some n →
      n ∈ live ∧ start_id < n ∧ ∀ m ∈ live, start_id < m → n ≤ m
  | [], n, h => by simp [smallest_above] at h
  | id :: rest, n, h => by
    cases hr : smallest_above start_id rest with
    | none =>
      have hall := (smallest_above_eq_none start_id rest).mp hr
      simp only [smallest_above, hr] at h
      split at h
      · rename_i hid
        have hn : id = n := by simpa using h
        subst hn
        refine ⟨List.mem_cons_self _ _, hid, ?_⟩
        intro m hm hlt
        rcases List.mem_cons.mp hm with e | hm'
        · omega
        · have := hall m hm'
          omega
      · cases h
    | some best =>
      obtain ⟨hb_mem, hb_gt, hb_min⟩ := smallest_above_spec start_id rest best hr
      simp only [smallest_above, hr] at h
      split at h
      · rename_i hid
        have hn : id = n := by simpa using h
        subst hn
        refine ⟨List.mem_cons_self _ _, hid.1, ?_⟩
        intro m hm hlt
        rcases List.mem_cons.mp hm with e | hm'
        · omega
        · have := hb_min m hm' hlt
          omega
      · rename_i hid
        have hn : best = n := by simpa using h
        subst hn
        refine ⟨List.mem_cons_of_mem _ hb_mem, hb_gt, ?_⟩
        intro m hm hlt
        rcases List.mem_cons.mp hm with e | hm'
        · subst e
          by_contra hcon
          exact hid ⟨hlt, by omega⟩
        · exact hb_min m hm' hlt

/-- The pass finds `n` exactly when `n` is the least table entry above `start_id`. -/
theorem smallest_above_eq_some (start_id : Nat) (live : List Nat) (n : Nat) :
    smallest_above start_id live = some n ↔
      n ∈ live ∧ start_id < n ∧ ∀ m ∈ live, start_id < m → n ≤ m := by
  constructor
  · exact smallest_above_spec start_id live n
  · rintro ⟨hmem, hgt, hmin⟩
    cases hr : smallest_above start_id live with
    | none =>
      have := (smallest_above_eq_none start_id live).mp hr n hmem
      omega
    | some best =>
      obtain ⟨hb_mem, hb_gt, hb_min⟩ := smallest_above_spec start_id live best hr
      have h1 := hmin best hb_mem hb_gt
      have h2 := hb_min n hmem hgt
      have : best = n := by omega
      rw [this]

/-- Moving the cursor up to a live ID leaves strictly fewer table entries above it. -/
theorem entries_above_decrease (start_id n : Nat) (h : start_id < n) :
    ∀ live : List Nat, n ∈ live →
      (live.filter (fun id => n < id)).length < (live.filter (fun id => start_id < id)).length
  | [], hm => by simp at hm
  | id :: rest, hm => by
    have hle : (rest.filter (fun id => n < id)).length ≤
        (rest.filter (fun id => start_id < id)).length := by
      clear hm
      induction rest with
      | nil => simp
      | cons a t ih =>
        by_cases h1 : n < a
        · have h2 : start_id < a := by omega
          simp [List.filter_cons, h1, h2, ih]
        · by_cases h2 : start_id < a
          · simp [List.filter_cons, h1, h2]
            omega
          · simp [List.filter_cons, h1, h2, ih]
    rcases List.mem_cons.mp hm with e | hm'
    · subst e
      have h1 : ¬ n < n := by omega
      simp [List.filter_cons, h1, h]
      omega
    · have ih := entries_above_decrease start_id n h rest hm'
      by_cases h1 : n < id
      · have h2 : start_id < id := by omega
        simp [List.filter_cons, h1, h2, ih]
      · by_cases h2 : start_id < id
        · simp [List.filter_cons, h1, h2]
          omega
        · simp [List.filter_cons, h1, h2, ih]

/-- With more fuel than there are table entries above `start_id`, the walk ends
with `EBPF_NO_MORE_KEYS` after visiting, in increasing order, exactly the live
IDs above `start_id`. -/
theorem enumerate_program_ids_spec (live : List Nat) :
    ∀ (fuel start_id : Nat), (live.filter (fun id => start_id < id)).length < fuel →
      ∃ visited : List Nat,
        enumerate_program_ids live fuel start_id =
          (visited, some ebpf_result_t.EBPF_NO_MORE_KEYS) ∧
        visited.Pairwise (fun a b => a < b) ∧
        ∀ id, id ∈ visited ↔ id ∈ live ∧ start_id < id
  | 0, _, h => by omega
  | fuel + 1, start_id, h => by
    cases hr : smallest_above start_id live with
    | none =>
      have hall := (smallest_above_eq_none start_id live).mp hr
      refine ⟨[], by simp [enumerate_program_ids, ebpf_get_next_program_id, hr], by simp, ?_⟩
      intro id
      constructor
      · intro hm
        cases hm
      · rintro ⟨hm, hlt⟩
        have := hall id hm
        omega
    | some n =>
      obtain ⟨hn_mem, hn_gt, hn_min⟩ := smallest_above_spec start_id live n hr
      have hdec := entries_above_decrease start_id n hn_gt live hn_mem
      obtain ⟨visited, hrun, hsorted, hiff⟩ :=
        enumerate_program_ids_spec live fuel n (by omega)
      refine ⟨n :: visited, by simp [enumerate_program_ids, ebpf_get_next_program_id, hr, hrun],
        ?_, ?_⟩
      · refine List.pairwise_cons.mpr ⟨?_, hsorted⟩
        intro b hb
        exact ((hiff b).mp hb).2
      · intro id
        constructor
        · intro hm
          rcases List.mem_cons.mp hm with e | hm'
          · subst e
            exact ⟨hn_mem, hn_gt⟩
          · have := (hiff id).mp hm'
            exact ⟨this.1, by omega⟩
        · rintro ⟨hm, hlt⟩
          have hle := hn_min id hm hlt
          by_cases e : id = n
          · subst e
            exact List.mem_cons_self _ _
          · exact List.mem_cons_of_mem _ ((hiff id).mpr ⟨hm, by omega⟩)

/-- On the locals, the reply stage gives the run of `dispatch_with_reply` when it
is entered with `user_reply` NULL and `actual_output_length` 0. -/
theorem dispatch_with_reply_locals_eq (env : io_environment) (obl min_reply : Nat)
    (l : ioctl_locals) (h_reply : l.user_reply = false) (h_len : l.actual_output_length = 0) :
    dispatch_with_reply_locals env obl min_reply l = dispatch_with_reply env obl min_reply := by
  unfold dispatch_with_reply_locals dispatch_with_reply Done_locals Done
  simp only [h_reply, h_len]
  by_cases h0 : min_reply > 0
  · rw [if_pos h0, if_pos h0]
    by_cases h1 : (env.retrieve_output obl).non_null = false
    · simp [h1]
    · have h1' : (env.retrieve_output obl).non_null = true := by simpa using h1
      simp [h1']
  · rw [if_neg h0, if_neg h0]

/-- The routine on its locals makes the same run as `EbpfCoreEvtIoDeviceControl`. -/
theorem EbpfCoreEvtIoDeviceControl_locals_eq (env : io_environment) (obl ibl code : Nat) :
    EbpfCoreEvtIoDeviceControl_locals env obl ibl code =
      EbpfCoreEvtIoDeviceControl env obl ibl code := by
  unfold EbpfCoreEvtIoDeviceControl_locals EbpfCoreEvtIoDeviceControl
  simp only [Done_locals, Done]
  by_cases hc : code = IOCTL_EBPFCTL_METHOD_BUFFERED
  · rw [if_pos hc, if_pos hc]
    by_cases hl : ibl ≠ 0
    · rw [if_pos hl, if_pos hl]
      rw [dispatch_with_reply_locals_eq env obl _ _ rfl rfl]
    · rw [if_neg hl, if_neg hl]
  · rw [if_neg hc, if_neg hc]

/-- Every status the table gives for a code other than `EBPF_ERROR_SUCCESS` fails
`NT_SUCCESS`. -/
theorem to_ntstatus_fails (e : ebpf_error_code_t) (h : e ≠ EBPF_ERROR_SUCCESS) :
    NT_SUCCESS (ebpf_error_code_to_ntstatus e) = false := by
  cases e <;> first
    | exact absurd rfl h
    | decide
    | (show NT_SUCCESS STATUS_INVALID_PARAMETER = false; decide)

/-- The calls made by `_net_ebpf_ext_driver_initialize_objects` hold no step of
`DriverEntry`, no terminate routine and no call of the uninitialize routine. -/
theorem netebpfext_objects_calls (env : netebpfext.environment) :
    netebpfext.steps_run (netebpfext._net_ebpf_ext_driver_initialize_objects env).calls = [] ∧
    netebpfext.terminate_calls
      (netebpfext._net_ebpf_ext_driver_initialize_objects env).calls = [] ∧
    netebpfext.uninitialize_count
      (netebpfext._net_ebpf_ext_driver_initialize_objects env).calls = 0 := by
  unfold netebpfext._net_ebpf_ext_driver_initialize_objects
  cases h1 : NT_SUCCESS env.driver_create <;>
  cases h2 : env.device_init_allocated <;>
  cases h3 : NT_SUCCESS env.assign_name <;>
  cases h4 : NT_SUCCESS env.device_create <;>
  cases h5 : NT_SUCCESS env.initialize_ndis_handles <;>
  cases h6 : NT_SUCCESS env.register_providers <;>
  simp [netebpfext.steps_run, netebpfext.terminate_calls, netebpfext.uninitialize_count,
    netebpfext.is_step, netebpfext.is_terminate, h1, h2, h3, h4, h5, h6]

/-! ### The IOCTL dispatch routine -/

/-- C1: in `EbpfCoreEvtIoDeviceControl` the protocol handler is invoked only
after `ebpf_core_get_protocol_handler_properties` was called for the request's
operation id and succeeded (on every run, whatever the request); and for a
buffered request whose input holds at least one operation header, a failing
lookup completes the request with `ebpf_error_code_to_ntstatus` of the lookup's
error, the handler never being invoked. -/
theorem invoke_only_after_successful_lookup (env : io_environment)
    (obl ibl code : Nat) :
    (handler_invoked (EbpfCoreEvtIoDeviceControl env obl ibl code) = true →
      get_protocol_handler_properties env.request_id ∈
          before_invoke (EbpfCoreEvtIoDeviceControl env obl ibl code) ∧
        (env.get_properties env.request_id).result = EBPF_ERROR_SUCCESS) ∧
    (code = IOCTL_EBPFCTL_METHOD_BUFFERED → ibl ≠ 0 →
      NT_SUCCESS (env.retrieve_input ibl).status = true →
      (env.retrieve_input ibl).non_null = true →
      env.header_size ≤ (env.retrieve_input ibl).actual_length →
      (env.get_properties env.request_id).result ≠ EBPF_ERROR_SUCCESS →
        get_protocol_handler_properties env.request_id ∈
          EbpfCoreEvtIoDeviceControl env obl ibl code ∧
        completion_statuses (EbpfCoreEvtIoDeviceControl env obl ibl code) =
          [ebpf_error_code_to_ntstatus (env.get_properties env.request_id).result] ∧
        handler_invoked (EbpfCoreEvtIoDeviceControl env obl ibl code) = false) := by
  constructor
  · apply EbpfCoreEvtIoDeviceControl_cases env obl ibl code
      (fun run => handler_invoked run = true →
        get_protocol_handler_properties env.request_id ∈ before_invoke run ∧
          (env.get_properties env.request_id).result = EBPF_ERROR_SUCCESS)
    case h_dispatch =>
      intro _ _ _ _ _ hr
      apply dispatch_with_reply_cases env obl _
        (fun t => handler_invoked ([retrieve_input_buffer ibl, hook_register_callouts,
            get_protocol_handler_properties env.request_id] ++ t) = true →
          get_protocol_handler_properties env.request_id ∈
            before_invoke ([retrieve_input_buffer ibl, hook_register_callouts,
              get_protocol_handler_properties env.request_id] ++ t) ∧
          (env.get_properties env.request_id).result = EBPF_ERROR_SUCCESS)
      all_goals intros
      all_goals simp [before_invoke, is_invoke, List.takeWhile, hr]
    all_goals intros
    all_goals simp_all [handler_invoked, is_invoke]
  · intro hc hl hs hn hh hr
    apply EbpfCoreEvtIoDeviceControl_cases env obl ibl code
      (fun run => get_protocol_handler_properties env.request_id ∈ run ∧
        completion_statuses run =
          [ebpf_error_code_to_ntstatus (env.get_properties env.request_id).result] ∧
        handler_invoked run = false)
    case h_lookup_fail =>
      intros
      simp [completion_statuses, handler_invoked, is_invoke]
    all_goals intros
    all_goals first
      | contradiction
      | omega
      | simp_all

/-- An instance of the preceding theorem: a request whose handler is invoked has
the successful lookup before the invocation, and a request whose lookup fails
with `EBPF_ERROR_NOT_FOUND` is completed with `STATUS_NOT_FOUND`, the handler not
being invoked. -/
theorem invoke_only_after_successful_lookup_witness :
    (get_protocol_handler_properties 3 ∈ before_invoke (EbpfCoreEvtIoDeviceControl
        (sample_environment 8 ⟨EBPF_ERROR_SUCCESS, 8, 0⟩ ⟨STATUS_SUCCESS, true, 0⟩
          EBPF_ERROR_SUCCESS) 0 8 IOCTL_EBPFCTL_METHOD_BUFFERED)) ∧
    completion_statuses (EbpfCoreEvtIoDeviceControl
        (sample_environment 8 ⟨EBPF_ERROR_NOT_FOUND, 0, 0⟩ ⟨STATUS_SUCCESS, true, 0⟩
          EBPF_ERROR_SUCCESS) 0 8 IOCTL_EBPFCTL_METHOD_BUFFERED) = [STATUS_NOT_FOUND] ∧
    handler_invoked (EbpfCoreEvtIoDeviceControl
        (sample_environment 8 ⟨EBPF_ERROR_NOT_FOUND, 0, 0⟩ ⟨STATUS_SUCCESS, true, 0⟩
          EBPF_ERROR_SUCCESS) 0 8 IOCTL_EBPFCTL_METHOD_BUFFERED) = false :=
  ⟨((invoke_only_after_successful_lookup
      (sample_environment 8 ⟨EBPF_ERROR_SUCCESS, 8, 0⟩ ⟨STATUS_SUCCESS, true, 0⟩
        EBPF_ERROR_SUCCESS) 0 8 IOCTL_EBPFCTL_METHOD_BUFFERED).1 (by decide)).1,
   ((invoke_only_after_successful_lookup
      (sample_environment 8 ⟨EBPF_ERROR_NOT_FOUND, 0, 0⟩ ⟨STATUS_SUCCESS, true, 0⟩
        EBPF_ERROR_SUCCESS) 0 8 IOCTL_EBPFCTL_METHOD_BUFFERED).2
    rfl (by decide) (by decide) (by decide) (by decide) (by decide)).2⟩

/-- C2: the routine at a request of 8 bytes for an operation whose minimum
request size is 16: the handler is invoked and the request completes with the
handler's status, `STATUS_SUCCESS`; no insufficient-buffer error is raised. -/
theorem short_request_reaches_handler :
    (sample_environment 8 ⟨EBPF_ERROR_SUCCESS, 16, 0⟩ ⟨STATUS_SUCCESS, true, 0⟩
        EBPF_ERROR_SUCCESS |>.retrieve_input 8).actual_length <
      (sample_environment 8 ⟨EBPF_ERROR_SUCCESS, 16, 0⟩ ⟨STATUS_SUCCESS, true, 0⟩
        EBPF_ERROR_SUCCESS |>.get_properties 3).minimum_request_size ∧
    EbpfCoreEvtIoDeviceControl
        (sample_environment 8 ⟨EBPF_ERROR_SUCCESS, 16, 0⟩ ⟨STATUS_SUCCESS, true, 0⟩
          EBPF_ERROR_SUCCESS) 0 8 IOCTL_EBPFCTL_METHOD_BUFFERED =
      [retrieve_input_buffer 8, hook_register_callouts, get_protocol_handler_properties 3,
       invoke_protocol_handler 3 false 0, complete_with_information STATUS_SUCCESS 0] := by
  decide

/-- C3: for a buffered request that reached the reply stage (header present,
lookup succeeded) and whose operation has a minimum reply size greater than
zero, an output buffer retrieved with an actual length below that minimum
completes the request with `STATUS_BUFFER_TOO_SMALL`, the handler not being
invoked. -/
theorem reply_buffer_too_small (env : io_environment) (obl ibl : Nat)
    (h_len : ibl ≠ 0)
    (h_in : NT_SUCCESS (env.retrieve_input ibl).status = true)
    (h_in_buf : (env.retrieve_input ibl).non_null = true)
    (h_hdr : env.header_size ≤ (env.retrieve_input ibl).actual_length)
    (h_lookup : (env.get_properties env.request_id).result = EBPF_ERROR_SUCCESS)
    (h_min : 0 < (env.get_properties env.request_id).minimum_reply_size)
    (h_out : NT_SUCCESS (env.retrieve_output obl).status = true)
    (h_out_buf : (env.retrieve_output obl).non_null = true)
    (h_small : (env.retrieve_output obl).actual_length <
      (env.get_properties env.request_id).minimum_reply_size) :
    completion_statuses
        (EbpfCoreEvtIoDeviceControl env obl ibl IOCTL_EBPFCTL_METHOD_BUFFERED) =
      [STATUS_BUFFER_TOO_SMALL] ∧
    handler_invoked
        (EbpfCoreEvtIoDeviceControl env obl ibl IOCTL_EBPFCTL_METHOD_BUFFERED) = false := by
  apply EbpfCoreEvtIoDeviceControl_cases env obl ibl IOCTL_EBPFCTL_METHOD_BUFFERED
    (fun run => completion_statuses run = [STATUS_BUFFER_TOO_SMALL] ∧
      handler_invoked run = false)
  case h_dispatch =>
    intros
    apply dispatch_with_reply_cases env obl _
      (fun t => completion_statuses ([retrieve_input_buffer ibl, hook_register_callouts,
          get_protocol_handler_properties env.request_id] ++ t) = [STATUS_BUFFER_TOO_SMALL] ∧
        handler_invoked ([retrieve_input_buffer ibl, hook_register_callouts,
          get_protocol_handler_properties env.request_id] ++ t) = false)
    case h_out_small =>
      intros
      simp [completion_statuses, handler_invoked, is_invoke]
    all_goals intros
    all_goals first
      | contradiction
      | omega
      | simp_all
  all_goals intros
  all_goals first
    | contradiction
    | omega
    | simp_all

/-- An instance of the preceding theorem: a request with a 4-byte output buffer
for an operation whose minimum reply size is 8. -/
theorem reply_buffer_too_small_witness :
    completion_statuses (EbpfCoreEvtIoDeviceControl
        (sample_environment 8 ⟨EBPF_ERROR_SUCCESS, 8, 8⟩ ⟨STATUS_SUCCESS, true, 4⟩
          EBPF_ERROR_SUCCESS) 4 8 IOCTL_EBPFCTL_METHOD_BUFFERED) =
      [STATUS_BUFFER_TOO_SMALL] ∧
    handler_invoked (EbpfCoreEvtIoDeviceControl
        (sample_environment 8 ⟨EBPF_ERROR_SUCCESS, 8, 8⟩ ⟨STATUS_SUCCESS, true, 4⟩
          EBPF_ERROR_SUCCESS) 4 8 IOCTL_EBPFCTL_METHOD_BUFFERED) = false :=
  reply_buffer_too_small
    (sample_environment 8 ⟨EBPF_ERROR_SUCCESS, 8, 8⟩ ⟨STATUS_SUCCESS, true, 4⟩
      EBPF_ERROR_SUCCESS) 4 8
    (by decide) (by decide) (by decide) (by decide) (by decide) (by decide) (by decide)
    (by decide) (by decide)

/-- C4: a buffered request whose input buffer was retrieved with an actual
length smaller than `sizeof(struct _ebpf_operation_header)` is completed with
`STATUS_INVALID_PARAMETER`; neither the property lookup nor the protocol handler
is called for it. -/
theorem short_input_rejected (env : io_environment) (obl ibl : Nat)
    (h_len : ibl ≠ 0)
    (h_in : NT_SUCCESS (env.retrieve_input ibl).status = true)
    (h_short : (env.retrieve_input ibl).actual_length < env.header_size) :
    completion_statuses
        (EbpfCoreEvtIoDeviceControl env obl ibl IOCTL_EBPFCTL_METHOD_BUFFERED) =
      [STATUS_INVALID_PARAMETER] ∧
    properties_looked_up
        (EbpfCoreEvtIoDeviceControl env obl ibl IOCTL_EBPFCTL_METHOD_BUFFERED) = false ∧
    handler_invoked
        (EbpfCoreEvtIoDeviceControl env obl ibl IOCTL_EBPFCTL_METHOD_BUFFERED) = false := by
  apply EbpfCoreEvtIoDeviceControl_cases env obl ibl IOCTL_EBPFCTL_METHOD_BUFFERED
    (fun run => completion_statuses run = [STATUS_INVALID_PARAMETER] ∧
      properties_looked_up run = false ∧ handler_invoked run = false)
  case h_in_null =>
    intros
    simp [completion_statuses, properties_looked_up, is_get_properties, handler_invoked,
      is_invoke]
  case h_short =>
    intros
    simp [completion_statuses, properties_looked_up, is_get_properties, handler_invoked,
      is_invoke]
  all_goals intros
  all_goals first
    | contradiction
    | omega
    | simp_all

/-- An instance of the preceding theorem: a request carrying 4 bytes of input,
half an operation header. -/
theorem short_input_rejected_witness :
    completion_statuses (EbpfCoreEvtIoDeviceControl
        (sample_environment 4 ⟨EBPF_ERROR_SUCCESS, 8, 0⟩ ⟨STATUS_SUCCESS, true, 0⟩
          EBPF_ERROR_SUCCESS) 0 4 IOCTL_EBPFCTL_METHOD_BUFFERED) =
      [STATUS_INVALID_PARAMETER] ∧
    properties_looked_up (EbpfCoreEvtIoDeviceControl
        (sample_environment 4 ⟨EBPF_ERROR_SUCCESS, 8, 0⟩ ⟨STATUS_SUCCESS, true, 0⟩
          EBPF_ERROR_SUCCESS) 0 4 IOCTL_EBPFCTL_METHOD_BUFFERED) = false ∧
    handler_invoked (EbpfCoreEvtIoDeviceControl
        (sample_environment 4 ⟨EBPF_ERROR_SUCCESS, 8, 0⟩ ⟨STATUS_SUCCESS, true, 0⟩
          EBPF_ERROR_SUCCESS) 0 4 IOCTL_EBPFCTL_METHOD_BUFFERED) = false :=
  short_input_rejected
    (sample_environment 4 ⟨EBPF_ERROR_SUCCESS, 8, 0⟩ ⟨STATUS_SUCCESS, true, 0⟩
      EBPF_ERROR_SUCCESS) 0 4 (by decide) (by decide) (by decide)

/-- C10: the routine at a request with an output buffer of 65536 bytes for an
operation whose minimum reply size is 8: the handler is invoked with a non-null
reply buffer and reply length `(uint16_t)65536 = 0`, below the minimum. -/
theorem reply_length_truncated_below_minimum :
    invocations (EbpfCoreEvtIoDeviceControl
        (sample_environment 8 ⟨EBPF_ERROR_SUCCESS, 8, 8⟩ ⟨STATUS_SUCCESS, true, 65536⟩
          EBPF_ERROR_SUCCESS) 65536 8 IOCTL_EBPFCTL_METHOD_BUFFERED) = [(3, true, 0)] ∧
    (sample_environment 8 ⟨EBPF_ERROR_SUCCESS, 8, 8⟩ ⟨STATUS_SUCCESS, true, 65536⟩
        EBPF_ERROR_SUCCESS |>.get_properties 3).minimum_reply_size = 8 ∧
    (sample_environment 8 ⟨EBPF_ERROR_SUCCESS, 8, 8⟩ ⟨STATUS_SUCCESS, true, 65536⟩
        EBPF_ERROR_SUCCESS |>.retrieve_output 65536).actual_length = 65536 := by
  decide

/-- C5: `ebpf_error_code_to_ntstatus` is a total fixed table: each of the eight
named error codes has the status listed, and every error code value outside
these eight maps to `STATUS_INVALID_PARAMETER`. -/
theorem ebpf_error_code_to_ntstatus_table :
    ebpf_error_code_to_ntstatus EBPF_ERROR_SUCCESS = STATUS_SUCCESS ∧
    ebpf_error_code_to_ntstatus EBPF_ERROR_OUT_OF_RESOURCES = STATUS_INSUFFICIENT_RESOURCES ∧
    ebpf_error_code_to_ntstatus EBPF_ERROR_NOT_FOUND = STATUS_NOT_FOUND ∧
    ebpf_error_code_to_ntstatus EBPF_ERROR_INVALID_PARAMETER = STATUS_INVALID_PARAMETER ∧
    ebpf_error_code_to_ntstatus EBPF_ERROR_BLOCKED_BY_POLICY = STATUS_NOT_SUPPORTED ∧
    ebpf_error_code_to_ntstatus EBPF_ERROR_NO_MORE_KEYS = STATUS_NO_MORE_MATCHES ∧
    ebpf_error_code_to_ntstatus EBPF_ERROR_INVALID_HANDLE = STATUS_INVALID_HANDLE ∧
    ebpf_error_code_to_ntstatus EBPF_ERROR_NOT_SUPPORTED = STATUS_NOT_SUPPORTED ∧
    ∀ e : ebpf_error_code_t, e ∉ named_error_codes →
      ebpf_error_code_to_ntstatus e = STATUS_INVALID_PARAMETER := by
  refine ⟨rfl, rfl, rfl, rfl, rfl, rfl, rfl, rfl, ?_⟩
  intro e he
  cases e <;> first | rfl | (exact absurd (by simp [named_error_codes]) he)

/-- An instance of the preceding theorem: an error code value that is none of
the eight named ones. -/
theorem ebpf_error_code_to_ntstatus_table_witness :
    unnamed 8 ∉ named_error_codes ∧
    ebpf_error_code_to_ntstatus (unnamed 8) = STATUS_INVALID_PARAMETER :=
  ⟨by decide, ebpf_error_code_to_ntstatus_table.2.2.2.2.2.2.2.2 (unnamed 8) (by decide)⟩

/-! ### The generated sample -/

/-- C6: in the tail_call_multiple sample `callee1` returns 3 for every context,
and `caller` and `callee0` return 1 and 2 for every context whenever their tail
call does not transfer execution: the helper entry is not flagged `tail_call`,
or the helper call returns a non-zero value. -/
theorem tail_call_sample_return_values (map0 : map_entry_t)
    (caller_helper callee0_helper : helper_function_entry_t) (context : Nat) :
    (callee1 context).return_value = 3 ∧
    ((caller_helper.tail_call = false ∨
        caller_helper.address context (POINTER map0.address) 0 0 0 % 2 ^ 64 ≠ 0) →
      (caller map0 caller_helper context).return_value = 1) ∧
    ((callee0_helper.tail_call = false ∨
        callee0_helper.address context (POINTER map0.address) 9 0 0 % 2 ^ 64 ≠ 0) →
      (callee0 map0 callee0_helper context).return_value = 2) := by
  refine ⟨by simp [callee1, IMMEDIATE], ?_, ?_⟩
  · intro h
    have hc : ¬ (caller_helper.tail_call = true ∧
        caller_helper.address context (POINTER map0.address) 0 0 0 % 2 ^ 64 = 0) := by
      rintro ⟨h1, h2⟩
      rcases h with h | h
      · rw [h1] at h
        exact Bool.noConfusion h
      · exact h h2
    have h0 : IMMEDIATE 0 = 0 := by simp [IMMEDIATE]
    have h1 : IMMEDIATE 1 = 1 := by simp [IMMEDIATE]
    simp only [caller, h0, h1, if_neg hc]
  · intro h
    have hc : ¬ (callee0_helper.tail_call = true ∧
        callee0_helper.address context (POINTER map0.address) 9 0 0 % 2 ^ 64 = 0) := by
      rintro ⟨h1, h2⟩
      rcases h with h | h
      · rw [h1] at h
        exact Bool.noConfusion h
      · exact h h2
    have h9 : IMMEDIATE 9 = 9 := by simp [IMMEDIATE]
    have h2 : IMMEDIATE 2 = 2 := by simp [IMMEDIATE]
    simp only [callee0, h9, h2, if_neg hc]

/-- An instance of the preceding theorem: context 7, with a `caller`
helper that is flagged `tail_call` and returns 1, and a `callee0` helper that
returns 0 and is not flagged `tail_call`. -/
theorem tail_call_sample_return_values_witness :
    (caller (sample_map_entry 4096) (sample_helper_entry 1 true) 7).return_value = 1 ∧
    (callee0 (sample_map_entry 4096) (sample_helper_entry 0 false) 7).return_value = 2 :=
  ⟨(tail_call_sample_return_values (sample_map_entry 4096) (sample_helper_entry 1 true)
      (sample_helper_entry 0 false) 7).2.1 (Or.inr (by decide)),
   (tail_call_sample_return_values (sample_map_entry 4096) (sample_helper_entry 1 true)
      (sample_helper_entry 0 false) 7).2.2 (Or.inl rfl)⟩

/-! ### The object record -/

/-- C7, counterexample: on the `bpf_object` constructed by its default member
initializers the `loaded` flag is false although every contained program (there
is none) has a valid handle. -/
theorem default_object_breaks_loaded_iff :
    ¬ (({} : bpf_object).loaded = true ↔
        every_program_has_valid_handle (-1) (fun _ => none) {} = true) := by
  decide

/-- C7, as amended: the `bpf_object` constructed by its default member
initializers has no name, no programs, no maps and `loaded = false`; and for
every `bpf_object` whose `loaded` flag is false, "loaded implies every contained
program has a valid handle" holds, while the equivalence of the two holds
exactly when some contained program lacks a valid handle. -/
theorem unloaded_object_loaded_iff (ebpf_handle_invalid : ebpf_handle_t)
    (memory : Nat → Option bpf_program) (object : bpf_object)
    (h : object.loaded = false) :
    ({} : bpf_object) = ⟨none, [], [], false⟩ ∧
    (object.loaded = true →
      every_program_has_valid_handle ebpf_handle_invalid memory object = true) ∧
    ((object.loaded = true ↔
        every_program_has_valid_handle ebpf_handle_invalid memory object = true) ↔
      ∃ address ∈ object.programs,
        program_has_valid_handle ebpf_handle_invalid memory address = false) := by
  refine ⟨rfl, ?_, ?_⟩
  · intro h'
    rw [h] at h'
    exact Bool.noConfusion h'
  · simp [h, every_program_has_valid_handle]

/-- An instance of the preceding theorem: an opened, unloaded object with
one program whose handle is still `ebpf_handle_invalid`. -/
theorem unloaded_object_loaded_iff_witness :
    ((sample_unloaded_object.loaded = true ↔
        every_program_has_valid_handle (-1) sample_memory sample_unloaded_object = true) ↔
      ∃ address ∈ sample_unloaded_object.programs,
        program_has_valid_handle (-1) sample_memory address = false) :=
  (unloaded_object_loaded_iff (-1) sample_memory sample_unloaded_object rfl).2.2

/-! ### Iteration and enumeration -/

/-- C8: for every object whose program and map sequences hold distinct entries,
`ebpf_program_next(NULL, object)` is the first program and
`ebpf_program_previous(NULL, object)` the last (NULL for no programs); for the
program at any position `i`, `ebpf_program_next` returns the program at `i + 1`
(NULL past the end) and `ebpf_program_previous` the program at `i - 1` (NULL for
the first); `ebpf_map_next` / `ebpf_map_previous` do the same over the maps. -/
theorem iteration_contract (object : bpf_object)
    (h_programs : object.programs.Nodup) (h_maps : object.maps.Nodup) :
    (ebpf_program_next none object = object.programs.head? ∧
     ebpf_program_previous none object = object.programs.getLast? ∧
     ∀ (i : Nat) (p : Nat), object.programs[i]? = some p →
       ebpf_program_next (some p) object = object.programs[i + 1]? ∧
       ebpf_program_previous (some p) object =
         if i = 0 then none else object.programs[i - 1]?) ∧
    (ebpf_map_next none object = object.maps.head? ∧
     ebpf_map_previous none object = object.maps.getLast? ∧
     ∀ (i : Nat) (m : Nat), object.maps[i]? = some m →
       ebpf_map_next (some m) object = object.maps[i + 1]? ∧
       ebpf_map_previous (some m) object =
         if i = 0 then none else object.maps[i - 1]?) :=
  ⟨⟨rfl, rfl, fun i p h =>
      ⟨successor_of_getElem? p object.programs i h_programs h,
       predecessor_of_getElem? p object.programs i h_programs h⟩⟩,
   ⟨rfl, rfl, fun i m h =>
      ⟨successor_of_getElem? m object.maps i h_maps h,
       predecessor_of_getElem? m object.maps i h_maps h⟩⟩⟩

/-- An instance of the preceding theorem, an object with three programs: the
second program is followed by the third, and the first has no predecessor. -/
theorem iteration_contract_witness :
    ebpf_program_next (some 4160) sample_iteration_object = some 4224 ∧
    ebpf_program_previous (some 4096) sample_iteration_object = none :=
  ⟨((iteration_contract sample_iteration_object (by decide) (by decide)).1.2.2
      1 4160 rfl).1,
   ((iteration_contract sample_iteration_object (by decide) (by decide)).1.2.2
      0 4096 rfl).2⟩

/-- C9: for every table of live program IDs and every `start_id`,
`ebpf_get_next_program_id(start_id)` succeeds with the smallest live ID strictly
greater than `start_id` when one exists and returns `EBPF_NO_MORE_KEYS`
otherwise; consequently the walk that starts from 0 and feeds back each returned
ID ends with `EBPF_NO_MORE_KEYS` (within one call more than there are table
entries) after visiting, exactly once and in increasing order, every live ID
above the starting cursor 0: every live program ID, 0 being no live ID. -/
theorem get_next_program_id_enumeration (live : List Nat) (start_id : Nat) :
    (∀ n, ebpf_get_next_program_id live start_id = .ok n ↔
      n ∈ live ∧ start_id < n ∧ ∀ m ∈ live, start_id < m → n ≤ m) ∧
    (ebpf_get_next_program_id live start_id = .error ebpf_result_t.EBPF_NO_MORE_KEYS ↔
      ∀ m ∈ live, m ≤ start_id) ∧
    ∀ fuel, live.length < fuel →
      ∃ visited : List Nat,
        enumerate_program_ids live fuel 0 = (visited, some ebpf_result_t.EBPF_NO_MORE_KEYS) ∧
        visited.Pairwise (fun a b => a < b) ∧ visited.Nodup ∧
        (∀ id, id ∈ visited ↔ id ∈ live ∧ 0 < id) ∧
        (0 ∉ live → ∀ id, id ∈ visited ↔ id ∈ live) := by
  refine ⟨?_, ?_, ?_⟩
  · intro n
    rw [← smallest_above_eq_some]
    unfold ebpf_get_next_program_id
    cases smallest_above start_id live <;> simp
  · rw [← smallest_above_eq_none]
    unfold ebpf_get_next_program_id
    cases smallest_above start_id live <;> simp
  · intro fuel hfuel
    have hlen : (live.filter (fun id => 0 < id)).length < fuel :=
      lt_of_le_of_lt (List.length_filter_le _ _) hfuel
    obtain ⟨visited, hrun, hsorted, hiff⟩ := enumerate_program_ids_spec live fuel 0 hlen
    refine ⟨visited, hrun, hsorted, ?_, hiff, ?_⟩
    · exact hsorted.imp (fun h => Nat.ne_of_lt h)
    · intro h_zero id
      rw [hiff id]
      constructor
      · exact fun h => h.1
      · intro hm
        refine ⟨hm, Nat.pos_of_ne_zero ?_⟩
        rintro rfl
        exact h_zero hm

/-- An instance of the preceding theorem: with the live IDs 5, 3 and 9, after 3
comes 5, and the walk from 0 with fuel 4 ends with `EBPF_NO_MORE_KEYS` having
visited exactly the live IDs, in increasing order. -/
theorem get_next_program_id_enumeration_witness :
    ebpf_get_next_program_id [5, 3, 9] 3 = .ok 5 ∧
    ∃ visited : List Nat,
      enumerate_program_ids [5, 3, 9] 4 0 =
        (visited, some ebpf_result_t.EBPF_NO_MORE_KEYS) ∧
      visited.Pairwise (fun a b => a < b) ∧
      ∀ id, id ∈ visited ↔ id ∈ [5, 3, 9] :=
  ⟨((get_next_program_id_enumeration [5, 3, 9] 3).1 5).mpr
     ⟨by decide, by decide, by decide⟩,
   ((get_next_program_id_enumeration [5, 3, 9] 3).2.2 4 (by decide)).imp
     fun _ h => ⟨h.1, h.2.1, h.2.2.2.2 (by decide)⟩⟩

/-! ### The reply header, rejected requests and the status table -/

/-- C11: in every run of `EbpfCoreEvtIoDeviceControl`, a handler invocation is
made with a reply buffer exactly when the operation's minimum reply size is not
0; when the handler was invoked with a reply buffer and succeeded, the transport
makes one write to the reply header, with the id read from the request header
and the actual output buffer length modulo 2^16; when the handler fails or was
invoked without a reply buffer, and when it is not invoked at all, no write to a
reply header is made. -/
theorem reply_header_written_on_success (env : io_environment) (obl ibl code : Nat) :
    (∀ id reply_non_null n,
      (id, reply_non_null, n) ∈ invocations (EbpfCoreEvtIoDeviceControl env obl ibl code) →
        (reply_non_null = true ↔
          0 < (env.get_properties env.request_id).minimum_reply_size) ∧
        reply_header_writes (EbpfCoreEvtIoDeviceControl env obl ibl code) =
          if reply_non_null = true ∧ env.invoke_handler id reply_non_null n = EBPF_ERROR_SUCCESS
          then [(env.request_id_after, (env.retrieve_output obl).actual_length % 2 ^ 16)]
          else []) ∧
    (invocations (EbpfCoreEvtIoDeviceControl env obl ibl code) = [] →
      reply_header_writes (EbpfCoreEvtIoDeviceControl env obl ibl code) = []) := by
  apply EbpfCoreEvtIoDeviceControl_cases env obl ibl code
    (fun run =>
      (∀ id reply_non_null n, (id, reply_non_null, n) ∈ invocations run →
        (reply_non_null = true ↔
          0 < (env.get_properties env.request_id).minimum_reply_size) ∧
        reply_header_writes run =
          if reply_non_null = true ∧ env.invoke_handler id reply_non_null n = EBPF_ERROR_SUCCESS
          then [(env.request_id_after, (env.retrieve_output obl).actual_length % 2 ^ 16)]
          else []) ∧
      (invocations run = [] → reply_header_writes run = []))
  case h_dispatch =>
    intros
    apply dispatch_with_reply_cases env obl _
      (fun t =>
        (∀ id reply_non_null n, (id, reply_non_null, n) ∈
            invocations ([retrieve_input_buffer ibl, hook_register_callouts,
              get_protocol_handler_properties env.request_id] ++ t) →
          (reply_non_null = true ↔
            0 < (env.get_properties env.request_id).minimum_reply_size) ∧
          reply_header_writes ([retrieve_input_buffer ibl, hook_register_callouts,
              get_protocol_handler_properties env.request_id] ++ t) =
            if reply_non_null = true ∧
                env.invoke_handler id reply_non_null n = EBPF_ERROR_SUCCESS
            then [(env.request_id_after, (env.retrieve_output obl).actual_length % 2 ^ 16)]
            else []) ∧
        (invocations ([retrieve_input_buffer ibl, hook_register_callouts,
              get_protocol_handler_properties env.request_id] ++ t) = [] →
          reply_header_writes ([retrieve_input_buffer ibl, hook_register_callouts,
              get_protocol_handler_properties env.request_id] ++ t) = []))
    case h_reply_ok =>
      intro h0 _ _ _ hok
      simp [invocations, reply_header_writes, to_uint16] at hok ⊢
      simp [hok, h0]
    case h_reply_fail =>
      intro h0 _ _ _ hfail
      simp [invocations, reply_header_writes, to_uint16] at hfail ⊢
      simp [hfail, h0]
    case h_no_reply =>
      intro h0
      simp [invocations, reply_header_writes, h0]
    all_goals intros
    all_goals simp [invocations, reply_header_writes]
  all_goals intros
  all_goals simp [invocations, reply_header_writes]

/-- An instance of the preceding theorem: a request with a 16-byte output buffer
whose handler succeeds gets the reply header `{id 3, length 16}`. -/
theorem reply_header_written_on_success_witness :
    reply_header_writes (EbpfCoreEvtIoDeviceControl
        (sample_environment 8 ⟨EBPF_ERROR_SUCCESS, 8, 8⟩ ⟨STATUS_SUCCESS, true, 16⟩
          EBPF_ERROR_SUCCESS) 16 8 IOCTL_EBPFCTL_METHOD_BUFFERED) = [(3, 16)] :=
  ((reply_header_written_on_success
      (sample_environment 8 ⟨EBPF_ERROR_SUCCESS, 8, 8⟩ ⟨STATUS_SUCCESS, true, 16⟩
        EBPF_ERROR_SUCCESS) 16 8 IOCTL_EBPFCTL_METHOD_BUFFERED).1 3 true 16 (by decide)).2

/-- C12: a buffered-IOCTL request with `input_buffer_length` equal to 0 is
completed, as the only step of the run, with the invalid-parameter status
`NDIS_STATUS_INVALID_PARAMETER` (a failing status): no buffer is retrieved, no
callout registered, no handler property looked up and no handler invoked. -/
theorem zero_length_input_rejected (env : io_environment) (obl : Nat) :
    EbpfCoreEvtIoDeviceControl env obl 0 IOCTL_EBPFCTL_METHOD_BUFFERED =
      [complete_with_information NDIS_STATUS_INVALID_PARAMETER obl] ∧
    NT_SUCCESS NDIS_STATUS_INVALID_PARAMETER = false ∧
    buffer_retrieved (EbpfCoreEvtIoDeviceControl env obl 0 IOCTL_EBPFCTL_METHOD_BUFFERED)
      = false ∧
    callouts_registered (EbpfCoreEvtIoDeviceControl env obl 0 IOCTL_EBPFCTL_METHOD_BUFFERED)
      = false ∧
    properties_looked_up (EbpfCoreEvtIoDeviceControl env obl 0 IOCTL_EBPFCTL_METHOD_BUFFERED)
      = false ∧
    handler_invoked (EbpfCoreEvtIoDeviceControl env obl 0 IOCTL_EBPFCTL_METHOD_BUFFERED)
      = false := by
  have h : EbpfCoreEvtIoDeviceControl env obl 0 IOCTL_EBPFCTL_METHOD_BUFFERED =
      [complete_with_information NDIS_STATUS_INVALID_PARAMETER obl] := by
    unfold EbpfCoreEvtIoDeviceControl
    rw [if_pos rfl, if_neg (by simp)]
    rfl
  rw [h]
  refine ⟨rfl, by decide, ?_, ?_, ?_, ?_⟩ <;>
    simp [buffer_retrieved, is_retrieve, callouts_registered, properties_looked_up,
      is_get_properties, handler_invoked, is_invoke]

/-- C13: `ebpf_error_code_to_ntstatus` returns `STATUS_SUCCESS` if and only if
its argument is `EBPF_ERROR_SUCCESS`, and every other error code value, named or
not, is translated to a status for which `NT_SUCCESS` is false. -/
theorem to_ntstatus_success_only_for_success (e : ebpf_error_code_t) :
    (ebpf_error_code_to_ntstatus e = STATUS_SUCCESS ↔ e = EBPF_ERROR_SUCCESS) ∧
    (e ≠ EBPF_ERROR_SUCCESS → NT_SUCCESS (ebpf_error_code_to_ntstatus e) = false) ∧
    NT_SUCCESS STATUS_SUCCESS = true :=
  ⟨to_ntstatus_eq_success_iff e, to_ntstatus_fails e, by decide⟩

/-- An instance of the preceding theorem: an error code value that is none of
the named ones is translated to a failing status. -/
theorem to_ntstatus_success_only_for_success_witness :
    NT_SUCCESS (ebpf_error_code_to_ntstatus (unnamed 8)) = false :=
  (to_ntstatus_success_only_for_success (unnamed 8)).2.1 (by decide)

/-! ### The sample programs and their metadata table -/

/-- C14: in the tail_call_multiple sample `caller` and `callee0` return 0 if and
only if their helper entry is flagged `tail_call` and the helper call returned
0; in every other case they return 1 and 2 respectively. -/
theorem tail_call_sample_zero_iff_transfer (map0 : map_entry_t)
    (caller_helper callee0_helper : helper_function_entry_t) (context : Nat) :
    ((caller map0 caller_helper context).return_value = 0 ↔
      (caller_helper.tail_call = true ∧
        caller_helper.address context (POINTER map0.address) 0 0 0 % 2 ^ 64 = 0)) ∧
    (¬ (caller_helper.tail_call = true ∧
        caller_helper.address context (POINTER map0.address) 0 0 0 % 2 ^ 64 = 0) →
      (caller map0 caller_helper context).return_value = 1) ∧
    ((callee0 map0 callee0_helper context).return_value = 0 ↔
      (callee0_helper.tail_call = true ∧
        callee0_helper.address context (POINTER map0.address) 9 0 0 % 2 ^ 64 = 0)) ∧
    (¬ (callee0_helper.tail_call = true ∧
        callee0_helper.address context (POINTER map0.address) 9 0 0 % 2 ^ 64 = 0) →
      (callee0 map0 callee0_helper context).return_value = 2) := by
  have h0 : IMMEDIATE 0 = 0 := by simp [IMMEDIATE]
  have h1 : IMMEDIATE 1 = 1 := by simp [IMMEDIATE]
  have h2 : IMMEDIATE 2 = 2 := by simp [IMMEDIATE]
  have h9 : IMMEDIATE 9 = 9 := by simp [IMMEDIATE]
  refine ⟨?_, ?_, ?_, ?_⟩
  · by_cases hc : caller_helper.tail_call = true ∧
        caller_helper.address context (POINTER map0.address) 0 0 0 % 2 ^ 64 = 0
    · have hr : (caller map0 caller_helper context).return_value = 0 := by
        simp only [caller, h0, h1, if_pos hc]
      exact ⟨fun _ => hc, fun _ => hr⟩
    · have hr : (caller map0 caller_helper context).return_value = 1 := by
        simp only [caller, h0, h1, if_neg hc]
      rw [hr]
      exact ⟨fun h => absurd h Nat.one_ne_zero, fun h => absurd h hc⟩
  · intro hc
    simp only [caller, h0, h1, if_neg hc]
  · by_cases hc : callee0_helper.tail_call = true ∧
        callee0_helper.address context (POINTER map0.address) 9 0 0 % 2 ^ 64 = 0
    · have hr : (callee0 map0 callee0_helper context).return_value = 0 := by
        simp only [callee0, h9, h2, if_pos hc]
      exact ⟨fun _ => hc, fun _ => hr⟩
    · have hr : (callee0 map0 callee0_helper context).return_value = 2 := by
        simp only [callee0, h9, h2, if_neg hc]
      rw [hr]
      exact ⟨fun h => absurd h (by decide), fun h => absurd h hc⟩
  · intro hc
    simp only [callee0, h9, h2, if_neg hc]

/-- An instance of the preceding theorem: at context 7, `caller` with a
`tail_call` helper that returns 1 returns 1, and `callee0` with a helper that is
not flagged `tail_call` returns 2. -/
theorem tail_call_sample_zero_iff_transfer_witness :
    (caller (sample_map_entry 4096) (sample_helper_entry 1 true) 7).return_value = 1 ∧
    (callee0 (sample_map_entry 4096) (sample_helper_entry 0 false) 7).return_value = 2 :=
  ⟨(tail_call_sample_zero_iff_transfer (sample_map_entry 4096) (sample_helper_entry 1 true)
      (sample_helper_entry 0 false) 7).2.1 (by decide),
   (tail_call_sample_zero_iff_transfer (sample_map_entry 4096) (sample_helper_entry 1 true)
      (sample_helper_entry 0 false) 7).2.2.2 (by decide)⟩

/-- C15: in the tail_call_multiple sample, for every context, `caller` invokes
its helper (id 5) exactly once, with arguments (context, address of map 0, 0, 0,
0), `callee0` invokes its helper (id 5) exactly once, with arguments (context,
address of map 0, 9, 0, 0), and `callee1` invokes no helper; the map address is
passed as a 64-bit register value. -/
theorem tail_call_sample_helper_calls (map_address : Nat) (r : resolved_helpers)
    (context : Nat) :
    (∀ map0 ∈ _maps map_address,
      (∀ helper0 ∈ caller_helpers r.caller_address r.caller_tail_call,
        (caller map0 helper0 context).helper_calls =
          [⟨5, context, POINTER map_address, 0, 0, 0⟩]) ∧
      (∀ helper0 ∈ callee0_helpers r.callee0_address r.callee0_tail_call,
        (callee0 map0 helper0 context).helper_calls =
          [⟨5, context, POINTER map_address, 9, 0, 0⟩])) ∧
    (callee1 context).helper_calls = [] ∧
    (map_address < 2 ^ 64 → POINTER map_address = map_address) := by
  have h0 : IMMEDIATE 0 = 0 := by simp [IMMEDIATE]
  have h9 : IMMEDIATE 9 = 9 := by simp [IMMEDIATE]
  refine ⟨?_, rfl, fun h => Nat.mod_eq_of_lt h⟩
  intro map0 hm
  have hmap : map0.address = map_address := by
    simp only [_maps, List.mem_singleton] at hm
    rw [hm]
  refine ⟨?_, ?_⟩
  · intro helper0 hh
    have hid : helper0.helper_id = 5 := by
      simp only [caller_helpers, List.mem_singleton] at hh
      rw [hh]
    unfold caller
    simp only [h0, hid, hmap]
    split <;> rfl
  · intro helper0 hh
    have hid : helper0.helper_id = 5 := by
      simp only [callee0_helpers, List.mem_singleton] at hh
      rw [hh]
    unfold callee0
    simp only [h9, hid, hmap]
    split <;> rfl

/-- An instance of the preceding theorem: with map 0 at address 4096, on which
`POINTER` is the identity, `caller` run on context 7 calls helper 5 once with
`(7, 4096, 0, 0, 0)`. -/
theorem tail_call_sample_helper_calls_witness :
    (caller (sample_map_entry 4096) (sample_helper_entry 1 true) 7).helper_calls =
      [⟨5, 7, 4096, 0, 0, 0⟩] ∧
    POINTER 4096 = 4096 :=
  ⟨((tail_call_sample_helper_calls 4096
      ⟨fun _ _ _ _ _ => 1, true, fun _ _ _ _ _ => 0, false⟩ 7).1
      (sample_map_entry 4096) (List.mem_singleton.mpr rfl)).1
      (sample_helper_entry 1 true) (List.mem_singleton.mpr rfl),
   (tail_call_sample_helper_calls 4096
      ⟨fun _ _ _ _ _ => 1, true, fun _ _ _ _ _ => 0, false⟩ 7).2.2 (by decide)⟩

/-- C16: the metadata table of the sample is well formed. `_get_programs`
reports 3, the length of `_programs`, whose entries are `caller`, `callee0` and
`callee1` in that order; `_get_maps` reports 1, the length of `_maps`, whose
entry is a `BPF_MAP_TYPE_PROG_ARRAY` with key size 4, value size 4 and 10
entries at most; in every program entry the declared map count and helper count
are the lengths of its map-index and helper arrays (0, with both arrays `NULL`,
for `callee1`), and every referenced map index is below the map count. -/
theorem metadata_table_well_formed (map_address : Nat) (r : resolved_helpers) :
    ((_get_programs r).2 = 3 ∧ (_get_programs r).1.length = (_get_programs r).2 ∧
      (_get_programs r).1.map (fun e => e.program_name) = ["caller", "callee0", "callee1"] ∧
      (_get_programs r).1.map (fun e => e.function) =
        [program_function.caller, program_function.callee0, program_function.callee1]) ∧
    ((_get_maps map_address).2 = 1 ∧
      (_get_maps map_address).1.length = (_get_maps map_address).2 ∧
      ∀ m ∈ (_get_maps map_address).1,
        m.definition.type = bpf_map_type.BPF_MAP_TYPE_PROG_ARRAY ∧
        m.definition.key_size = 4 ∧ m.definition.value_size = 4 ∧
        m.definition.max_entries = 10) ∧
    (∀ e ∈ (_get_programs r).1,
      e.referenced_map_count = array_length e.referenced_map_indices ∧
      e.helper_count = array_length e.helpers ∧
      (e.program_name = "callee1" →
        e.referenced_map_indices = none ∧ e.helpers.isNone = true ∧
        e.referenced_map_count = 0 ∧ e.helper_count = 0) ∧
      ∀ index ∈ referenced_maps e, index < (_get_maps map_address).2) := by
  refine ⟨⟨rfl, rfl, rfl, rfl⟩, ⟨rfl, rfl, ?_⟩, ?_⟩
  · intro m hm
    simp only [_get_maps, _maps, List.mem_singleton] at hm
    rw [hm]
    exact ⟨rfl, rfl, rfl, rfl⟩
  · intro e he
    simp only [_get_programs, _programs, List.mem_cons, List.mem_singleton,
      List.not_mem_nil, or_false] at he
    rcases he with he | he | he <;> rw [he] <;>
      simp [array_length, referenced_maps, caller_maps, callee0_maps, caller_helpers,
        callee0_helpers, _get_maps]

/-- An instance of the preceding theorem: the entry of `callee1` has both
counts 0. -/
theorem metadata_table_well_formed_witness :
    sample_callee1_entry.referenced_map_count = 0 ∧ sample_callee1_entry.helper_count = 0 :=
  ⟨(((metadata_table_well_formed 4096 sample_resolved_helpers).2.2 sample_callee1_entry
      (List.get_mem _ _ _)).2.2.1 rfl).2.2.1,
   (((metadata_table_well_formed 4096 sample_resolved_helpers).2.2 sample_callee1_entry
      (List.get_mem _ _ _)).2.2.1 rfl).2.2.2⟩

/-! ### Completion of the request -/

/-- C17: two runs of `EbpfCoreEvtIoDeviceControl` that differ only in the result
returned by `ebpf_hook_register_callouts` are the same run, on the routine with
its locals (where that result is stored in `status`) as on its dataflow form:
the request is completed with the same status and the protocol handler is
invoked in the one exactly when it is invoked in the other. -/
theorem register_callouts_result_ignored (env : io_environment)
    (result₁ result₂ : NTSTATUS) (obl ibl code : Nat) :
    EbpfCoreEvtIoDeviceControl_locals { env with register_callouts := result₁ } obl ibl code =
      EbpfCoreEvtIoDeviceControl_locals { env with register_callouts := result₂ }
        obl ibl code ∧
    completion_statuses
        (EbpfCoreEvtIoDeviceControl { env with register_callouts := result₁ } obl ibl code) =
      completion_statuses
        (EbpfCoreEvtIoDeviceControl { env with register_callouts := result₂ } obl ibl code) ∧
    handler_invoked
        (EbpfCoreEvtIoDeviceControl { env with register_callouts := result₁ } obl ibl code) =
      handler_invoked
        (EbpfCoreEvtIoDeviceControl { env with register_callouts := result₂ } obl ibl code) := by
  have h : EbpfCoreEvtIoDeviceControl { env with register_callouts := result₁ } obl ibl code =
      EbpfCoreEvtIoDeviceControl { env with register_callouts := result₂ } obl ibl code := rfl
  refine ⟨?_, by rw [h], by rw [h]⟩
  rw [EbpfCoreEvtIoDeviceControl_locals_eq, EbpfCoreEvtIoDeviceControl_locals_eq, h]

/-- C19: a request whose `io_control_code` is not
`IOCTL_EBPFCTL_METHOD_BUFFERED` is completed with `STATUS_SUCCESS` as the only
step of the run: no buffer is retrieved and the protocol handler is not
invoked. -/
theorem other_control_code_completes_with_success (env : io_environment)
    (obl ibl code : Nat) (h_code : code ≠ IOCTL_EBPFCTL_METHOD_BUFFERED) :
    EbpfCoreEvtIoDeviceControl env obl ibl code =
      [complete_with_information STATUS_SUCCESS obl] ∧
    buffer_retrieved (EbpfCoreEvtIoDeviceControl env obl ibl code) = false ∧
    handler_invoked (EbpfCoreEvtIoDeviceControl env obl ibl code) = false := by
  have h : EbpfCoreEvtIoDeviceControl env obl ibl code =
      [complete_with_information STATUS_SUCCESS obl] := by
    unfold EbpfCoreEvtIoDeviceControl
    rw [if_neg h_code]
    rfl
  rw [h]
  refine ⟨rfl, ?_, ?_⟩ <;> simp [buffer_retrieved, is_retrieve, handler_invoked, is_invoke]

/-- An instance of the preceding theorem: control code 0 on an 8-byte request. -/
theorem other_control_code_completes_with_success_witness :
    EbpfCoreEvtIoDeviceControl
        (sample_environment 8 ⟨EBPF_ERROR_SUCCESS, 8, 0⟩ ⟨STATUS_SUCCESS, true, 0⟩
          EBPF_ERROR_SUCCESS) 16 8 0 =
      [complete_with_information STATUS_SUCCESS 16] :=
  (other_control_code_completes_with_success
    (sample_environment 8 ⟨EBPF_ERROR_SUCCESS, 8, 0⟩ ⟨STATUS_SUCCESS, true, 0⟩
      EBPF_ERROR_SUCCESS) 16 8 0 (by decide)).1

/-- C20: every run of `EbpfCoreEvtIoDeviceControl`, on every path, completes the
request exactly once via `WdfRequestCompleteWithInformation`, as its last step,
and the information value is the `output_buffer_length` parameter whatever the
status. -/
theorem request_completed_exactly_once (env : io_environment) (obl ibl code : Nat) :
    ∃ status : NTSTATUS,
      completions (EbpfCoreEvtIoDeviceControl env obl ibl code) = [(status, obl)] ∧
      (EbpfCoreEvtIoDeviceControl env obl ibl code).getLast? =
        some (complete_with_information status obl) := by
  apply EbpfCoreEvtIoDeviceControl_cases env obl ibl code
    (fun run => ∃ status : NTSTATUS, completions run = [(status, obl)] ∧
      run.getLast? = some (complete_with_information status obl))
  case h_dispatch =>
    intros
    apply dispatch_with_reply_cases env obl _
      (fun t => ∃ status : NTSTATUS,
        completions ([retrieve_input_buffer ibl, hook_register_callouts,
          get_protocol_handler_properties env.request_id] ++ t) = [(status, obl)] ∧
        ([retrieve_input_buffer ibl, hook_register_callouts,
          get_protocol_handler_properties env.request_id] ++ t).getLast? =
            some (complete_with_information status obl))
    all_goals intros
    all_goals exact ⟨_, rfl, rfl⟩
  all_goals intros
  all_goals exact ⟨_, rfl, rfl⟩

/-! ### Driver object initialization -/

/-- C18: with the caller's out-pointer `device` non-NULL, `EbpfCoreInitDriverObjects`
calls `WdfObjectDelete` on the device exactly when it returns a failing status
after `WdfDeviceCreate` succeeded (so never when an earlier step failed or when
it returns success), at most once; it calls `WdfControlFinishInitializing`
exactly when every step succeeded, which is exactly when it returns success. -/
theorem device_deleted_iff_failure_after_create (env : init_environment)
    (h_device : env.device_non_null = true) :
    (init_event.WdfObjectDelete ∈ (EbpfCoreInitDriverObjects env).2 ↔
      NT_SUCCESS (EbpfCoreInitDriverObjects env).1 = false ∧ device_created env = true) ∧
    (EbpfCoreInitDriverObjects env).2.count init_event.WdfObjectDelete ≤ 1 ∧
    (init_event.WdfControlFinishInitializing ∈ (EbpfCoreInitDriverObjects env).2 ↔
      every_step_succeeded env = true) ∧
    (NT_SUCCESS (EbpfCoreInitDriverObjects env).1 = true ↔
      every_step_succeeded env = true) := by
  have hres : NT_SUCCESS STATUS_INSUFFICIENT_RESOURCES = false := by decide
  unfold EbpfCoreInitDriverObjects every_step_succeeded device_created
  cases h1 : NT_SUCCESS env.driver_create <;>
  cases h2 : env.device_init_allocated <;>
  cases h3 : NT_SUCCESS env.device_create <;>
  cases h4 : NT_SUCCESS env.create_symbolic_link <;>
  cases h5 : NT_SUCCESS env.io_queue_create <;>
  cases h6 : NT_SUCCESS (ebpf_error_code_to_ntstatus env.core_initiate) <;>
  simp [Exit_init, after_calls, h_device, hres, h1, h2, h3, h4, h5, h6]

/-- An instance of the preceding theorem: when `WdfIoQueueCreate` fails after
the device was created, the device is deleted and initialization is not
finished. -/
theorem device_deleted_iff_failure_after_create_witness :
    init_event.WdfObjectDelete ∈ (EbpfCoreInitDriverObjects
      ⟨STATUS_SUCCESS, true, STATUS_SUCCESS, STATUS_SUCCESS, STATUS_INSUFFICIENT_RESOURCES,
        EBPF_ERROR_SUCCESS, true⟩).2 :=
  (device_deleted_iff_failure_after_create
    ⟨STATUS_SUCCESS, true, STATUS_SUCCESS, STATUS_SUCCESS, STATUS_INSUFFICIENT_RESOURCES,
      EBPF_ERROR_SUCCESS, true⟩ rfl).1.mpr ⟨by decide, by decide⟩

/-! ### The `netebpfext` driver entry -/

/-- C21: the `netebpfext` `DriverEntry` returns a failing status if and only if
one of `net_ebpf_ext_trace_initiate`, `ebpf_platform_initiate`,
`ebpf_random_initiate` or `_net_ebpf_ext_driver_initialize_objects` fails; it
then returns the status of the first failing step, runs no later step and calls
`_net_ebpf_ext_driver_uninitialize_objects` exactly once; when all four succeed
it returns success, having run the four steps, and never calls
`_net_ebpf_ext_driver_uninitialize_objects`. -/
theorem netebpfext_driver_entry_first_failure (env : netebpfext.environment) :
    (NT_SUCCESS (netebpfext.DriverEntry env).1 = false ↔
      (NT_SUCCESS env.trace_initiate = false ∨
       NT_SUCCESS (netebpfext.platform_status env) = false ∨
       NT_SUCCESS (netebpfext.random_status env) = false ∨
       NT_SUCCESS (netebpfext.objects_status env) = false)) ∧
    (NT_SUCCESS env.trace_initiate = false →
      (netebpfext.DriverEntry env).1 = env.trace_initiate ∧
      netebpfext.steps_run (netebpfext.DriverEntry env).2 =
        [netebpfext.event.net_ebpf_ext_trace_initiate] ∧
      netebpfext.uninitialize_count (netebpfext.DriverEntry env).2 = 1) ∧
    (NT_SUCCESS env.trace_initiate = true →
      NT_SUCCESS (netebpfext.platform_status env) = false →
      (netebpfext.DriverEntry env).1 = netebpfext.platform_status env ∧
      netebpfext.steps_run (netebpfext.DriverEntry env).2 =
        [netebpfext.event.net_ebpf_ext_trace_initiate,
         netebpfext.event.ebpf_platform_initiate] ∧
      netebpfext.uninitialize_count (netebpfext.DriverEntry env).2 = 1) ∧
    (NT_SUCCESS env.trace_initiate = true →
      NT_SUCCESS (netebpfext.platform_status env) = true →
      NT_SUCCESS (netebpfext.random_status env) = false →
      (netebpfext.DriverEntry env).1 = netebpfext.random_status env ∧
      netebpfext.steps_run (netebpfext.DriverEntry env).2 =
        [netebpfext.event.net_ebpf_ext_trace_initiate,
         netebpfext.event.ebpf_platform_initiate, netebpfext.event.ebpf_random_initiate] ∧
      netebpfext.uninitialize_count (netebpfext.DriverEntry env).2 = 1) ∧
    (NT_SUCCESS env.trace_initiate = true →
      NT_SUCCESS (netebpfext.platform_status env) = true →
      NT_SUCCESS (netebpfext.random_status env) = true →
      (netebpfext.DriverEntry env).1 = netebpfext.objects_status env ∧
      netebpfext.steps_run (netebpfext.DriverEntry env).2 =
        [netebpfext.event.net_ebpf_ext_trace_initiate,
         netebpfext.event.ebpf_platform_initiate, netebpfext.event.ebpf_random_initiate,
         netebpfext.event.driver_initialize_objects] ∧
      netebpfext.uninitialize_count (netebpfext.DriverEntry env).2 =
        if NT_SUCCESS (netebpfext.objects_status env) = false then 1 else 0) := by
  obtain ⟨hsteps, -, hcount⟩ := netebpfext_objects_calls env
  unfold netebpfext.steps_run at hsteps
  unfold netebpfext.uninitialize_count at hcount
  unfold netebpfext.DriverEntry netebpfext.platform_status netebpfext.random_status
    netebpfext.objects_status
  cases h1 : NT_SUCCESS env.trace_initiate <;>
  cases h2 : NT_SUCCESS (env.ebpf_result_to_ntstatus env.platform_initiate) <;>
  cases h3 : NT_SUCCESS (env.ebpf_result_to_ntstatus env.random_initiate) <;>
  cases h4 : NT_SUCCESS (netebpfext._net_ebpf_ext_driver_initialize_objects env).status <;>
  cases h5 : (netebpfext._net_ebpf_ext_driver_initialize_objects env).device_non_null <;>
  simp [netebpfext.Exit, netebpfext._net_ebpf_ext_driver_uninitialize_objects,
    netebpfext.steps_run, netebpfext.uninitialize_count, netebpfext.is_step,
    List.filter_cons, List.count_cons, h1, h2, h3, h4, h5, hsteps, hcount]

/-- An instance of the preceding theorem: when `net_ebpf_ext_trace_initiate`
fails with `STATUS_INSUFFICIENT_RESOURCES`, that status is returned, no later
step is run and the uninitialize routine is called once. -/
theorem netebpfext_driver_entry_first_failure_witness :
    (netebpfext.DriverEntry
        (sample_netebpfext_environment STATUS_INSUFFICIENT_RESOURCES STATUS_SUCCESS)).1 =
      STATUS_INSUFFICIENT_RESOURCES ∧
    netebpfext.steps_run (netebpfext.DriverEntry
        (sample_netebpfext_environment STATUS_INSUFFICIENT_RESOURCES STATUS_SUCCESS)).2 =
      [netebpfext.event.net_ebpf_ext_trace_initiate] ∧
    netebpfext.uninitialize_count (netebpfext.DriverEntry
        (sample_netebpfext_environment STATUS_INSUFFICIENT_RESOURCES STATUS_SUCCESS)).2 = 1 :=
  (netebpfext_driver_entry_first_failure
    (sample_netebpfext_environment STATUS_INSUFFICIENT_RESOURCES STATUS_SUCCESS)).2.1
    (by decide)

/-- C22, counterexample: when `net_ebpf_ext_trace_initiate` fails, the execution
calls `net_ebpf_ext_trace_terminate`, whose initiate routine did not succeed,
and `ebpf_platform_terminate` and `ebpf_random_terminate`, whose initiate
routines were never called. -/
theorem netebpfext_terminate_without_initiate :
    NT_SUCCESS (sample_netebpfext_environment STATUS_INSUFFICIENT_RESOURCES
      STATUS_SUCCESS).trace_initiate = false ∧
    (netebpfext.DriverEntry
        (sample_netebpfext_environment STATUS_INSUFFICIENT_RESOURCES STATUS_SUCCESS)).2 =
      [netebpfext.event.net_ebpf_ext_trace_initiate,
       netebpfext.event.driver_uninitialize_objects,
       netebpfext.event.net_ebpf_ext_unregister_providers,
       netebpfext.event.net_ebpf_extension_uninitialize_wfp_components,
       netebpfext.event.net_ebpf_ext_uninitialize_ndis_handles,
       netebpfext.event.ebpf_random_terminate,
       netebpfext.event.ebpf_platform_terminate,
       netebpfext.event.net_ebpf_ext_trace_terminate] ∧
    netebpfext.terminates_only_initiated
      (sample_netebpfext_environment STATUS_INSUFFICIENT_RESOURCES STATUS_SUCCESS) = false := by
  decide

/-- C22, as amended: in every execution of the `netebpfext` `DriverEntry` the
terminate routines are called exactly when `DriverEntry` returns a failing
status, and then all three, once each, in the order `ebpf_random_terminate`,
`ebpf_platform_terminate`, `net_ebpf_ext_trace_terminate`, whether or not the
component's initiate routine was called or succeeded; each terminate routine
called comes after a successful initiate of its component exactly in the
executions that succeed or in which the three initiate routines succeeded. -/
theorem netebpfext_terminate_on_failure (env : netebpfext.environment) :
    netebpfext.terminate_calls (netebpfext.DriverEntry env).2 =
      (if NT_SUCCESS (netebpfext.DriverEntry env).1 = false then
        [netebpfext.event.ebpf_random_terminate, netebpfext.event.ebpf_platform_terminate,
         netebpfext.event.net_ebpf_ext_trace_terminate]
       else []) ∧
    (netebpfext.terminates_only_initiated env = true ↔
      (NT_SUCCESS (netebpfext.DriverEntry env).1 = true ∨
        (NT_SUCCESS env.trace_initiate = true ∧
         NT_SUCCESS (netebpfext.platform_status env) = true ∧
         NT_SUCCESS (netebpfext.random_status env) = true))) := by
  obtain ⟨-, hterm, -⟩ := netebpfext_objects_calls env
  unfold netebpfext.terminate_calls at hterm
  have hnot : ∀ e ∈ (netebpfext._net_ebpf_ext_driver_initialize_objects env).calls,
      netebpfext.is_terminate e = false := by
    intro e he
    have := List.filter_eq_nil_iff.mp hterm e he
    simpa using this
  have hrandom : netebpfext.event.ebpf_random_terminate ∉
      (netebpfext._net_ebpf_ext_driver_initialize_objects env).calls :=
    fun h => by simpa [netebpfext.is_terminate] using hnot _ h
  have hplatform : netebpfext.event.ebpf_platform_terminate ∉
      (netebpfext._net_ebpf_ext_driver_initialize_objects env).calls :=
    fun h => by simpa [netebpfext.is_terminate] using hnot _ h
  have htrace : netebpfext.event.net_ebpf_ext_trace_terminate ∉
      (netebpfext._net_ebpf_ext_driver_initialize_objects env).calls :=
    fun h => by simpa [netebpfext.is_terminate] using hnot _ h
  unfold netebpfext.terminates_only_initiated netebpfext.terminate_only_after_success
    netebpfext.DriverEntry netebpfext.platform_status netebpfext.random_status
    netebpfext.terminate_calls
  cases h1 : NT_SUCCESS env.trace_initiate <;>
  cases h2 : NT_SUCCESS (env.ebpf_result_to_ntstatus env.platform_initiate) <;>
  cases h3 : NT_SUCCESS (env.ebpf_result_to_ntstatus env.random_initiate) <;>
  cases h4 : NT_SUCCESS (netebpfext._net_ebpf_ext_driver_initialize_objects env).status <;>
  cases h5 : (netebpfext._net_ebpf_ext_driver_initialize_objects env).device_non_null <;>
  simp [netebpfext.Exit, netebpfext._net_ebpf_ext_driver_uninitialize_objects,
    netebpfext.is_terminate, List.filter_cons, List.takeWhile_cons, h1, h2, h3, h4, h5, hterm,
    hrandom, hplatform, htrace]

/-! ### Collisions of the status table -/

/-- C23: among the eight named error codes, `ebpf_error_code_to_ntstatus` maps
`EBPF_ERROR_BLOCKED_BY_POLICY` and `EBPF_ERROR_NOT_SUPPORTED` to the same status,
`STATUS_NOT_SUPPORTED`, and two distinct named codes are mapped to the same
status only if they are these two. -/
theorem named_codes_collide_only_on_not_supported :
    ebpf_error_code_to_ntstatus EBPF_ERROR_BLOCKED_BY_POLICY = STATUS_NOT_SUPPORTED ∧
    ebpf_error_code_to_ntstatus EBPF_ERROR_NOT_SUPPORTED = STATUS_NOT_SUPPORTED ∧
    ∀ a ∈ named_error_codes, ∀ b ∈ named_error_codes, a ≠ b →
      (ebpf_error_code_to_ntstatus a = ebpf_error_code_to_ntstatus b ↔
        (a = EBPF_ERROR_BLOCKED_BY_POLICY ∧ b = EBPF_ERROR_NOT_SUPPORTED) ∨
        (a = EBPF_ERROR_NOT_SUPPORTED ∧ b = EBPF_ERROR_BLOCKED_BY_POLICY)) := by
  refine ⟨rfl, rfl, ?_⟩
  decide

/-- An instance of the preceding theorem: `EBPF_ERROR_NOT_FOUND` and
`EBPF_ERROR_NO_MORE_KEYS` are mapped to different statuses. -/
theorem named_codes_collide_only_on_not_supported_witness :
    ebpf_error_code_to_ntstatus EBPF_ERROR_NOT_FOUND ≠
      ebpf_error_code_to_ntstatus EBPF_ERROR_NO_MORE_KEYS :=
  fun h =>
    absurd
      ((named_codes_collide_only_on_not_supported.2.2 EBPF_ERROR_NOT_FOUND (by decide)
        EBPF_ERROR_NO_MORE_KEYS (by decide) (by decide)).mp h)
      (by decide)

end EbpfForWindows
